import Mathlib

/-!
# libicd-network-ofono: link-up / link-down state machine (`src/link.c`)

A shallow embedding of `link.c`.  The C code is callback driven and mutates a
heap; the embedding threads an explicit `World` through every function:

* the configuration store (GConf), the modem directory and the context objects
  are the collaborators `link.c` reads and writes;
* heap cells (`struct connctx_data`, the `GList **` of pending property names)
  live in append-only heaps, a pointer is the index of its cell, a freed cell keeps
  its index and reads as absent;
* every outbound call (`link_up_cb`, `link_down_cb`, `close_fn`,
  `ofono_connctx_set_string_full`, `ofono_connctx_activate`,
  `ofono_connctx_deactivate`) is appended to `World.trace`, and so are the log
  line of a write completion (`Event.property_log`) and each run of the teardown
  routine (`Event.destroyed`);
* dereferencing a dangling or NULL pointer, undefined in C, appends `Event.fault`
  and does nothing else;
* callbacks do not call back into `link.c` while they run.

`Input`, `step` and `run` model the event loop that delivers calls and
notifications to `link.c`, one at a time.
-/

namespace OfonoLink

/-! ## Collaborator types -/

/-- Status codes handed to the callbacks (`icd_nw_api.h`). -/
inductive icd_nw_status where
  | ICD_NW_SUCCESS
  | ICD_NW_SUCCESS_NEXT_LAYER
  | ICD_NW_ERROR
  deriving DecidableEq, Repr

/-- Connection method of a context's settings (libgofono). -/
inductive ofono_connctx_method where
  | OFONO_CONNCTX_METHOD_UNKNOWN
  | OFONO_CONNCTX_METHOD_NONE
  | OFONO_CONNCTX_METHOD_STATIC
  | OFONO_CONNCTX_METHOD_DHCP
  deriving DecidableEq, Repr

/-- The settings snapshot `OfonoConnCtxSettings`; `dns` is the NULL-terminated
string vector, so `dns[0]` is `dns.head?` and `dns[1]` is only read after it. -/
structure OfonoConnCtxSettings where
  ifname : Option String
  address : Option String
  gateway : Option String
  netmask : Option String
  dns : List String
  method : ofono_connctx_method
  deriving DecidableEq, Repr

/-- The fields of `OfonoConnCtx` that `link.c` reads; `settings` is a pointer
that may be NULL. -/
structure OfonoConnCtx where
  apn : Option String
  username : Option String
  password : Option String
  active : Bool
  settings : Option OfonoConnCtxSettings
  deriving DecidableEq, Repr

/-- The fields of `OfonoSimMgr` read by `ofono_modem_find_by_imsi`;
`valid` is what `ofono_simmgr_valid` returns. -/
structure OfonoSimMgr where
  valid : Bool
  present : Bool
  imsi : Option String
  deriving DecidableEq, Repr

/-- Modelled from the spec: `struct modem_data` is declared outside `link.c`.  A
modem holds its SIM, the table behind `ofono_modem_get_context_by_id` (context
id to context pointer) and `ctxhd`, the map from context pointer to the request
record tracked for it (at most one entry per context). -/
structure modem_data where
  sim : OfonoSimMgr
  contexts : List (String × Nat)
  ctxhd : List (Nat × Nat)
  deriving DecidableEq, Repr

/-- The request record `struct connctx_data` (`link.c` lines 32-45).  `priv` is
the single plugin instance and is the `World` itself; `link_up_cb` is the
identity of the callback function, `md` and `ctx` are pointers. -/
structure connctx_data where
  network_id : String
  network_type : String
  network_attrs : Nat
  link_up_cb : Nat
  link_up_cb_token : Nat
  md : Nat
  ctx : Nat
  timeout_id : Nat
  id : Nat
  connected : Bool
  deriving DecidableEq, Repr

/-- A value held by the configuration store. -/
inductive GConfValue where
  | str (s : String)
  | bool (b : Bool)
  deriving DecidableEq, Repr

/-- The configuration store: network id, then key. -/
abbrev GConf := String → String → Option GConfValue

/-- An asynchronous property write handed to `ofono_connctx_set_string_full`
whose completion has not run yet; `arg` is the `GList **` given to the
completion callback. -/
structure PendingWrite where
  ctx : Nat
  name : String
  value : Option String
  arg : Nat
  deriving DecidableEq, Repr

/-- What the outside world observes, in order. -/
inductive Event where
  | link_up_cb (cb : Nat) (status : icd_nw_status) (err_str : Option String)
      (interface_name : Option String) (token : Nat)
  | link_down_cb (cb : Nat) (status : icd_nw_status) (token : Nat)
  | close_fn (status : icd_nw_status) (err_str : String) (network_type : String)
      (network_attrs : Nat) (network_id : String)
  | set_string_full (ctx : Nat) (name : String) (value : Option String) (arg : Nat)
  | activate (ctx : Nat)
  | deactivate (ctx : Nat)
  | property_log (name : String) (error : Option String)
  | destroyed (data : Nat)
  | fault
  deriving DecidableEq, Repr

/-- The whole state `link.c` runs in. -/
structure World where
  /-- the configuration store -/
  gconf : GConf
  /-- the modem directory `priv->modems`, in iteration order; a modem pointer is its index -/
  modems : List modem_data
  /-- heap of context objects, `none` once destroyed -/
  ctxs : List (Option OfonoConnCtx)
  /-- heap of request records -/
  datas : List (Option connctx_data)
  /-- heap of `GList *` cells holding pending property names -/
  lists : List (Option (List String))
  /-- active-changed subscriptions: context, handler id, handler argument -/
  handlers : List (Nat × Nat × Nat)
  /-- weak references with `_connctx_weak_notify`: context, argument -/
  weak_refs : List (Nat × Nat)
  /-- idle sources running `_link_up_idle`: source id, argument -/
  idles : List (Nat × Nat)
  /-- property writes whose completion has not run -/
  writes : List PendingWrite
  /-- last handler id handed out -/
  next_handler : Nat
  /-- last source id handed out -/
  next_source : Nat
  /-- whether `g_try_new` fails -/
  oom : Bool
  /-- outbound calls so far -/
  trace : List Event

/-! ## Heap and collaborator primitives -/

/-- Read a heap cell; absent when out of range or freed. -/
def heap_get {α : Type} (h : List (Option α)) (p : Nat) : Option α :=
  match h[p]? with
  | some (some v) => some v
  | _ => none

/-- Record an outbound call. -/
def World.emit (w : World) (e : Event) : World :=
  { w with trace := w.trace ++ [e] }

/-- Undefined behaviour in C: record it and stop. -/
def World.crash (w : World) : World :=
  w.emit Event.fault

/-- Dereference a request record pointer. -/
def World.data (w : World) (d : Nat) : Option connctx_data :=
  heap_get w.datas d

/-- Dereference a context pointer. -/
def World.ctx (w : World) (c : Nat) : Option OfonoConnCtx :=
  heap_get w.ctxs c

/-- Dereference a pending-list cell. -/
def World.list (w : World) (l : Nat) : Option (List String) :=
  heap_get w.lists l

/-- Byte-wise comparison of two strings, as `strcmp` does it (the order of the
UTF-8 bytes is the order of the code points). -/
def strcmp_chars : List Char → List Char → Int
  | [], [] => 0
  | [], _ :: _ => -1
  | _ :: _, [] => 1
  | a :: as, b :: bs =>
    if a.toNat < b.toNat then -1
    else if b.toNat < a.toNat then 1
    else strcmp_chars as bs

/-- C's `strcmp` on two non-NULL strings. -/
def strcmp (a b : String) : Int :=
  strcmp_chars a.data b.data

/-- GLib's `g_strcmp0`: NULL-aware `strcmp`, NULL sorts before any string. -/
def g_strcmp0 (str1 str2 : Option String) : Int :=
  match str1, str2 with
  | none, none => 0
  | none, some _ => -1
  | some _, none => 1
  | some a, some b => strcmp a b

/-- Modelled from the spec: the fixed SIM-identity key `SIM_IMSI`, a macro
defined outside `link.c`. -/
def SIM_IMSI : String := "sim_imsi"

/-- Modelled from the spec: `get_string(network_id, key) -> Option<string>` of
the configuration store (`icd_gconf_get_iap_string` and
`ofono_icd_gconf_get_iap_string`, defined outside `link.c`).  A key holding a
boolean reads as unset. -/
def icd_gconf_get_iap_string (g : GConf) (network_id key : String) : Option String :=
  match g network_id key with
  | some (GConfValue.str s) => some s
  | _ => none

/-- Modelled from the spec: `set_string(network_id, key, value: Option<string>)`
of the configuration store (`ofono_icd_gconf_set_iap_string`, defined outside
`link.c`); an absent value clears the entry. -/
def ofono_icd_gconf_set_iap_string (g : GConf) (network_id key : String)
    (value : Option String) : GConf :=
  fun i k => if i = network_id ∧ k = key then value.map GConfValue.str else g i k

/-- Modelled from the spec: `get_bool(network_id, key, default) -> bool` of the
configuration store (`ofono_icd_gconf_get_iap_bool`, defined outside `link.c`);
the default is returned when the key holds no boolean. -/
def ofono_icd_gconf_get_iap_bool (g : GConf) (network_id key : String) (dflt : Bool) : Bool :=
  match g network_id key with
  | some (GConfValue.bool b) => b
  | _ => dflt

/-- Modelled from the spec: `set_bool(network_id, key, value)` of the
configuration store (`ofono_icd_gconf_set_iap_bool`, defined outside `link.c`). -/
def ofono_icd_gconf_set_iap_bool (g : GConf) (network_id key : String) (value : Bool) : GConf :=
  fun i k => if i = network_id ∧ k = key then some (GConfValue.bool value) else g i k

/-- Store write on the world. -/
def World.set_iap_string (w : World) (network_id key : String) (value : Option String) : World :=
  { w with gconf := ofono_icd_gconf_set_iap_string w.gconf network_id key value }

/-- Store write on the world. -/
def World.set_iap_bool (w : World) (network_id key : String) (value : Bool) : World :=
  { w with gconf := ofono_icd_gconf_set_iap_bool w.gconf network_id key value }

/-- Modelled from the spec: `context_by_id(id) -> Option<ConnectionContext>` of
the modem directory (`ofono_modem_get_context_by_id`, defined outside `link.c`);
a NULL id finds nothing. -/
def ofono_modem_get_context_by_id (md : modem_data) (context_id : Option String) : Option Nat :=
  match context_id with
  | none => none
  | some id => md.contexts.lookup id

/-- libgofono's `ofono_connctx_set_string_full`: queue the asynchronous write. -/
def ofono_connctx_set_string_full (ctx : Nat) (name : String) (value : Option String)
    (arg : Nat) (w : World) : World :=
  { w with writes := w.writes ++ [⟨ctx, name, value, arg⟩],
           trace := w.trace ++ [Event.set_string_full ctx name value arg] }

/-- libgofono's `ofono_connctx_activate`: fire and forget. -/
def ofono_connctx_activate (ctx : Nat) (w : World) : World :=
  w.emit (Event.activate ctx)

/-- libgofono's `ofono_connctx_deactivate`: fire and forget. -/
def ofono_connctx_deactivate (ctx : Nat) (w : World) : World :=
  w.emit (Event.deactivate ctx)

/-- GLib's `g_idle_add (_link_up_idle, data)`: source ids are positive. -/
def g_idle_add (d : Nat) (w : World) : World × Nat :=
  ({ w with idles := w.idles ++ [(w.next_source + 1, d)], next_source := w.next_source + 1 },
   w.next_source + 1)

/-- GLib's `g_source_remove`. -/
def g_source_remove (tag : Nat) (w : World) : World :=
  { w with idles := w.idles.filter (fun s => s.1 ≠ tag) }

/-- libgofono's `ofono_connctx_add_active_changed_handler` with
`_ctx_active_changed_cb`: handler ids are positive. -/
def ofono_connctx_add_active_changed_handler (ctx d : Nat) (w : World) : World × Nat :=
  ({ w with handlers := w.handlers ++ [(ctx, w.next_handler + 1, d)],
            next_handler := w.next_handler + 1 },
   w.next_handler + 1)

/-- libgofono's `ofono_connctx_remove_handler`. -/
def ofono_connctx_remove_handler (ctx id : Nat) (w : World) : World :=
  { w with handlers := w.handlers.filter (fun h => ¬ (h.1 = ctx ∧ h.2.1 = id)) }

/-- GObject's `g_object_weak_ref (ctx, _connctx_weak_notify, data)`. -/
def g_object_weak_ref (ctx d : Nat) (w : World) : World :=
  { w with weak_refs := w.weak_refs ++ [(ctx, d)] }

/-- GObject's `g_object_weak_unref (ctx, _connctx_weak_notify, data)`. -/
def g_object_weak_unref (ctx d : Nat) (w : World) : World :=
  { w with weak_refs := w.weak_refs.filter (fun r => ¬ (r.1 = ctx ∧ r.2 = d)) }

/-! ## `link.c` -/

/-- The scan of `ofono_modem_find_by_imsi` from position `i` on. -/
def find_by_imsi_from (imsi : Option String) : List modem_data → Nat → Option Nat
  | [], _ => none
  | md :: rest, i =>
    if md.sim.valid && md.sim.present && (g_strcmp0 md.sim.imsi imsi == 0) then some i
    else find_by_imsi_from imsi rest (i + 1)

/-- `ofono_modem_find_by_imsi` (lines 10-30): the first modem in iteration order
whose SIM is valid, present and has the given IMSI. -/
def ofono_modem_find_by_imsi (w : World) (imsi : Option String) : Option Nat :=
  find_by_imsi_from imsi w.modems 0

/-- The first half of `_link_up_idle` (lines 55-105): read the two hints,
persist the `"AUTO"` default, and rewrite the stored IP settings for the next
layer.  Returns the store together with the locals `ipv4_type` and
`ipv4_autodns`. -/
def link_up_idle_hack (g : GConf) (net_id : String) (s : OfonoConnCtxSettings) :
    GConf × String × Bool :=
  let ipv4_type0 := icd_gconf_get_iap_string g net_id "ipv4_type"
  let ipv4_autodns := ofono_icd_gconf_get_iap_bool g net_id "ipv4_autodns" true
  let ipv4_type := match ipv4_type0 with
    | none => "AUTO"
    | some t => t
  let g := match ipv4_type0 with
    | none => ofono_icd_gconf_set_iap_string g net_id "ipv4_type" (some "AUTO")
    | some _ => g
  let g :=
    if strcmp ipv4_type "AUTO" = 0 then
      if s.method ≠ ofono_connctx_method.OFONO_CONNCTX_METHOD_DHCP then
        let g := ofono_icd_gconf_set_iap_string g net_id "ipv4_address" s.address
        let g := ofono_icd_gconf_set_iap_string g net_id "ipv4_gateway" s.gateway
        let g := ofono_icd_gconf_set_iap_string g net_id "ipv4_netmask" s.netmask
        ofono_icd_gconf_set_iap_string g net_id "ipv4_type" (some "STATIC")
      else g
    else g
  let g :=
    if ipv4_autodns then
      let g := ofono_icd_gconf_set_iap_bool g net_id "ipv4_autodns" false
      match s.dns with
      | dns0 :: rest =>
        let g := ofono_icd_gconf_set_iap_string g net_id "ipv4_dns1" (some dns0)
        match rest with
        | dns1 :: _ => ofono_icd_gconf_set_iap_string g net_id "ipv4_dns2" (some dns1)
        | [] => ofono_icd_gconf_set_iap_string g net_id "ipv4_dns2" none
      | [] =>
        let g := ofono_icd_gconf_set_iap_string g net_id "ipv4_dns1" none
        ofono_icd_gconf_set_iap_string g net_id "ipv4_dns2" none
    else g
  (g, ipv4_type, ipv4_autodns)

/-- `_link_up_idle` (lines 47-118), the deferred finalization.  The second
component is the return value: `false` is `G_SOURCE_REMOVE`. -/
def _link_up_idle (d : Nat) (w : World) : World × Bool :=
  match w.data d with
  | none => (w.crash, false)
  | some data =>
    match w.ctx data.ctx with
    | none => (w.crash, false)
    | some ctx =>
      match ctx.settings with
      | none => (w.crash, false)
      | some s =>
        let net_id := data.network_id
        let (g, ipv4_type, ipv4_autodns) := link_up_idle_hack w.gconf net_id s
        let w := { w with gconf := g }
        -- data->timeout_id = 0
        let w := { w with datas := w.datas.set d (some { data with timeout_id := 0 }) }
        let w := w.emit (Event.link_up_cb data.link_up_cb
          icd_nw_status.ICD_NW_SUCCESS_NEXT_LAYER none s.ifname data.link_up_cb_token)
        -- data->connected = TRUE
        let data1 := { data with timeout_id := 0, connected := true }
        let w := { w with datas := w.datas.set d (some data1) }
        -- restore what we found initially
        let w := w.set_iap_bool net_id "ipv4_autodns" ipv4_autodns
        let w := w.set_iap_string net_id "ipv4_type" (some ipv4_type)
        (w, false)

/-- `ofono_connctx_set_string_complete` (lines 120-144): the completion of one
property write.  `error` is `none` for success and `some message` (the message
itself may be NULL) for a failure; `l` is the shared `GList **`. -/
def ofono_connctx_set_string_complete (ctx : Nat) (error : Option (Option String))
    (l : Nat) (w : World) : World :=
  match w.list l with
  | none => w.crash
  | some [] => w.crash
  | some (name :: rest) =>
    let w := match error with
      | some message => w.emit (Event.property_log name (some (message.getD "Unknown error")))
      | none => w.emit (Event.property_log name none)
    -- g_free((*l)->data); *l = g_list_delete_link(*l, *l)
    let w := { w with lists := w.lists.set l (some rest) }
    match rest with
    | [] =>
      let w := { w with lists := w.lists.set l none }
      ofono_connctx_activate ctx w
    | _ :: _ => w

/-- One of the three compare-and-write blocks of `connctx_activate`
(lines 160-169, 171-180, 182-191). -/
def sync_property (ctx : Nat) (current : Option String) (name : String)
    (s : Option String) (l : Nat) (w : World) : World :=
  if g_strcmp0 current s ≠ 0 then
    -- *l = g_list_prepend(*l, g_strdup(name))
    let w := { w with lists := w.lists.set l (some (name :: (w.list l).getD [])) }
    ofono_connctx_set_string_full ctx name s l w
  else w

/-- `connctx_activate` (lines 147-204). -/
def connctx_activate (d : Nat) (activate : Bool) (w : World) : World :=
  match w.data d with
  | none => w.crash
  | some data =>
    if activate then
      match w.ctx data.ctx with
      | none => w.crash
      | some ctx =>
        let iap_name := data.network_id
        -- GList **l = g_new0(GList *, 1)
        let l := w.lists.length
        let w := { w with lists := w.lists ++ [some []] }
        let s := icd_gconf_get_iap_string w.gconf iap_name "gprs_accesspointname"
        let w := sync_property data.ctx ctx.apn "AccessPointName" s l w
        let s := icd_gconf_get_iap_string w.gconf iap_name "gprs_username"
        let w := sync_property data.ctx ctx.username "Username" s l w
        let s := icd_gconf_get_iap_string w.gconf iap_name "gprs_password"
        let w := sync_property data.ctx ctx.password "Password" s l w
        match w.list l with
        | some (_ :: _) => w
        | _ =>
          let w := { w with lists := w.lists.set l none }
          ofono_connctx_activate data.ctx w
    else
      ofono_connctx_deactivate data.ctx w

/-- `ofono_connctx_handler_data_destroy` (lines 245-259), the teardown routine. -/
def ofono_connctx_handler_data_destroy (d : Nat) (w : World) : World :=
  match w.data d with
  | none => w.crash
  | some data =>
    let w := g_object_weak_unref data.ctx d w
    let w := ofono_connctx_remove_handler data.ctx data.id w
    let w := if data.timeout_id ≠ 0 then g_source_remove data.timeout_id w else w
    let w := { w with datas := w.datas.set d none }
    w.emit (Event.destroyed d)

/-- Modelled from the spec: `g_hash_table_remove (md->ctxhd, ctx)`.  The map is
created outside `link.c`; removing an entry runs the single teardown routine
`ofono_connctx_handler_data_destroy` on its value, and removing an absent key
does nothing. -/
def g_hash_table_remove (md c : Nat) (w : World) : World :=
  match w.modems[md]? with
  | none => w.crash
  | some m =>
    match m.ctxhd.lookup c with
    | none => w
    | some d =>
      let m := { m with ctxhd := m.ctxhd.filter (fun e => e.1 ≠ c) }
      ofono_connctx_handler_data_destroy d { w with modems := w.modems.set md m }

/-- Modelled from the spec: `g_hash_table_insert (md->ctxhd, ctx, data)`.  The map
is created outside `link.c`; an existing entry for the key is replaced and its
old value is torn down by `ofono_connctx_handler_data_destroy`. -/
def g_hash_table_insert (md c d : Nat) (w : World) : World :=
  match w.modems[md]? with
  | none => w.crash
  | some m =>
    let m1 := { m with ctxhd := (c, d) :: m.ctxhd.filter (fun e => e.1 ≠ c) }
    let w := { w with modems := w.modems.set md m1 }
    match m.ctxhd.lookup c with
    | none => w
    | some d0 => ofono_connctx_handler_data_destroy d0 w

/-- `_ctx_active_changed_cb` (lines 206-226), the active-state handler. -/
def _ctx_active_changed_cb (c d : Nat) (w : World) : World :=
  match w.ctx c, w.data d with
  | some ctx, some data =>
    if ¬ data.connected then
      if ctx.active then
        let (w, id) := g_idle_add d w
        { w with datas := w.datas.set d (some { data with timeout_id := id }) }
      else
        connctx_activate d true w
    else if ¬ ctx.active then
      let w := w.emit (Event.close_fn icd_nw_status.ICD_NW_ERROR "network_error"
        data.network_type data.network_attrs data.network_id)
      g_hash_table_remove data.md c w
    else w
  | _, _ => w.crash

/-- `_connctx_weak_notify` (lines 228-243), the context-destruction notification. -/
def _connctx_weak_notify (d c : Nat) (w : World) : World :=
  match w.data d with
  | none => w.crash
  | some data =>
    let w :=
      if data.connected then
        w.emit (Event.close_fn icd_nw_status.ICD_NW_ERROR "network_error"
          data.network_type data.network_attrs data.network_id)
      else w
    g_hash_table_remove data.md c w

/-- `ofono_link_up` (lines 261-353).  Every `goto err` reaches the callback with
`ICD_NW_ERROR` and `"no_network"`. -/
def ofono_link_up (network_type : String) (network_attrs : Nat) (network_id : String)
    (link_up_cb : Nat) (link_up_cb_token : Nat) (w : World) : World :=
  let err := fun (w : World) => w.emit (Event.link_up_cb link_up_cb
    icd_nw_status.ICD_NW_ERROR (some "no_network") none link_up_cb_token)
  match icd_gconf_get_iap_string w.gconf network_id SIM_IMSI with
  | none => err w
  | some imsi =>
    match ofono_modem_find_by_imsi w (some imsi) with
    | none => err w
    | some md =>
      match w.modems[md]? with
      | none => err w.crash
      | some m =>
        match icd_gconf_get_iap_string w.gconf network_id "context_id" with
        | none => err w
        | some context_id =>
          if context_id = "" then err w
          else
            match ofono_modem_get_context_by_id m (some context_id) with
            | none => err (w.set_iap_string network_id "context_id" none)
            | some c =>
              -- data = g_try_new(struct connctx_data, 1)
              if w.oom then err w
              else
                let d := w.datas.length
                let (w1, id) := ofono_connctx_add_active_changed_handler c d w
                let data : connctx_data :=
                  { network_id := network_id, network_type := network_type,
                    network_attrs := network_attrs, link_up_cb := link_up_cb,
                    link_up_cb_token := link_up_cb_token, md := md, ctx := c,
                    timeout_id := 0, id := id, connected := false }
                let w2 := { w1 with datas := w1.datas ++ [some data] }
                let w3 := g_hash_table_insert md c d w2
                -- in case ctx gets destroyed behind our back
                let w4 := g_object_weak_ref c d w3
                match w4.ctx c with
                | none => w4.crash
                | some ctx => connctx_activate d (!ctx.active) w4

/-- `ofono_link_down` (lines 355-400). -/
def ofono_link_down (_network_type : String) (_network_attrs : Nat) (network_id : String)
    (_interface_name : Option String) (link_down_cb : Nat) (link_down_cb_token : Nat)
    (w : World) : World :=
  let done := fun (w : World) => w.emit (Event.link_down_cb link_down_cb
    icd_nw_status.ICD_NW_SUCCESS link_down_cb_token)
  match icd_gconf_get_iap_string w.gconf network_id SIM_IMSI with
  | none => done w
  | some imsi =>
    match ofono_modem_find_by_imsi w (some imsi) with
    | none => done w
    | some md =>
      match w.modems[md]? with
      | none => done w.crash
      | some m =>
        let context_id := icd_gconf_get_iap_string w.gconf network_id "context_id"
        match ofono_modem_get_context_by_id m context_id with
        | none => done w
        | some c =>
          let w := g_hash_table_remove md c w
          match w.ctx c with
          | none => done w.crash
          | some ctx =>
            if ctx.active then done (ofono_connctx_deactivate c w) else done w

/-! ## The event loop around `link.c` -/

/-- What the plugin host and the event loop deliver to `link.c`. -/
inductive Input where
  /-- the host calls `ofono_link_up` -/
  | link_up (network_type : String) (network_attrs : Nat) (network_id : String)
      (link_up_cb : Nat) (link_up_cb_token : Nat)
  /-- the host calls `ofono_link_down` -/
  | link_down (network_type : String) (network_attrs : Nat) (network_id : String)
      (interface_name : Option String) (link_down_cb : Nat) (link_down_cb_token : Nat)
  /-- the context's `active` flag becomes `active` -/
  | active_changed (ctx : Nat) (active : Bool)
  /-- the `i`-th outstanding property write completes -/
  | write_complete (i : Nat) (error : Option (Option String))
  /-- the loop dispatches the idle source `tag` -/
  | idle_dispatch (tag : Nat)
  /-- the context object is finalized -/
  | ctx_destroyed (ctx : Nat)
  /-- the context's string properties and settings snapshot change -/
  | ctx_props (ctx : Nat) (apn username password : Option String)
      (settings : Option OfonoConnCtxSettings)
  deriving DecidableEq, Repr

/-- Signal emission: run `_ctx_active_changed_cb` for every handler of the
snapshot that is on context `c` and still connected. -/
def dispatch_active_changed (c : Nat) : List (Nat × Nat × Nat) → World → World
  | [], w => w
  | h :: rest, w =>
    dispatch_active_changed c rest
      (if h.1 = c ∧ h ∈ w.handlers then _ctx_active_changed_cb c h.2.2 w else w)

/-- Finalization of a context: run `_connctx_weak_notify` for every weak
reference of the snapshot that is on context `c`. -/
def dispatch_weak_notify (c : Nat) : List (Nat × Nat) → World → World
  | [], w => w
  | r :: rest, w =>
    dispatch_weak_notify c rest (if r.1 = c then _connctx_weak_notify r.2 c w else w)

/-- One delivery. -/
def step (i : Input) (w : World) : World :=
  match i with
  | Input.link_up network_type network_attrs network_id cb token =>
    ofono_link_up network_type network_attrs network_id cb token w
  | Input.link_down network_type network_attrs network_id interface_name cb token =>
    ofono_link_down network_type network_attrs network_id interface_name cb token w
  | Input.active_changed c active =>
    match w.ctx c with
    | none => w
    | some ctx =>
      if ctx.active = active then w
      else
        dispatch_active_changed c w.handlers
          { w with ctxs := w.ctxs.set c (some { ctx with active := active }) }
  | Input.write_complete i error =>
    match w.writes[i]? with
    | none => w
    | some wr =>
      ofono_connctx_set_string_complete wr.ctx error wr.arg
        { w with writes := w.writes.eraseIdx i }
  | Input.idle_dispatch tag =>
    match w.idles.lookup tag with
    | none => w
    | some d =>
      let (w1, again) := _link_up_idle d w
      if again then w1 else g_source_remove tag w1
  | Input.ctx_destroyed c =>
    match w.ctx c with
    | none => w
    | some _ =>
      let refs := w.weak_refs
      let w := { w with weak_refs := w.weak_refs.filter (fun r => r.1 ≠ c) }
      let w := dispatch_weak_notify c refs w
      { w with ctxs := w.ctxs.set c none,
               modems := w.modems.map
                 (fun m => { m with contexts := m.contexts.filter (fun e => e.2 ≠ c) }) }
  | Input.ctx_props c apn username password settings =>
    match w.ctx c with
    | none => w
    | some ctx =>
      let ctx1 := { ctx with apn := apn, username := username, password := password,
                             settings := settings }
      { w with ctxs := w.ctxs.set c (some ctx1) }

/-- A sequence of deliveries, first to last. -/
def run : List Input → World → World
  | [], w => w
  | i :: rest, w => run rest (step i w)

/-! ## Observations on traces -/

/-- The events `w1` has recorded beyond the first `n`. -/
def World.since (w1 : World) (n : Nat) : List Event :=
  w1.trace.drop n

/-- Is the event a `link_up_cb` call reporting `ICD_NW_SUCCESS_NEXT_LAYER`? -/
def Event.is_link_up_success : Event → Bool
  | Event.link_up_cb _ icd_nw_status.ICD_NW_SUCCESS_NEXT_LAYER _ _ _ => true
  | _ => false

/-- Is the event a `link_up_cb` call? -/
def Event.is_link_up_cb : Event → Bool
  | Event.link_up_cb _ _ _ _ _ => true
  | _ => false

/-- Is the event a `link_down_cb` call? -/
def Event.is_link_down_cb : Event → Bool
  | Event.link_down_cb _ _ _ => true
  | _ => false

/-- Is the event a `close_fn` call? -/
def Event.is_close_fn : Event → Bool
  | Event.close_fn _ _ _ _ _ => true
  | _ => false

/-- Is the event a property write request? -/
def Event.is_set_string : Event → Bool
  | Event.set_string_full _ _ _ _ => true
  | _ => false

/-- Is the event an activation request? -/
def Event.is_activate : Event → Bool
  | Event.activate _ => true
  | _ => false

/-- Is the event a deactivation request? -/
def Event.is_deactivate : Event → Bool
  | Event.deactivate _ => true
  | _ => false

/-! ## A concrete world to run things in -/

/-- Settings of the sample context: static addressing, two DNS servers. -/
def sample_settings : OfonoConnCtxSettings :=
  { ifname := some "rmnet0", address := some "10.0.0.2", gateway := some "10.0.0.1",
    netmask := some "255.255.255.0", dns := ["8.8.8.8", "8.8.4.4"],
    method := ofono_connctx_method.OFONO_CONNCTX_METHOD_STATIC }

/-- The sample store: network `"net"` is provisioned with IMSI `"001"`,
context id `"/ctx1"` and APN `"internet"`; nothing else is set. -/
def sample_gconf : GConf := fun i k =>
  if i = "net" then
    if k = "sim_imsi" then some (GConfValue.str "001")
    else if k = "context_id" then some (GConfValue.str "/ctx1")
    else if k = "gprs_accesspointname" then some (GConfValue.str "internet")
    else none
  else none

/-- The sample modem: SIM `"001"`, one context `"/ctx1"` at pointer 0, no request
tracked. -/
def sample_modem : modem_data :=
  { sim := { valid := true, present := true, imsi := some "001" },
    contexts := [("/ctx1", 0)], ctxhd := [] }

/-- The sample context. -/
def sample_ctx (active : Bool) (apn username : Option String) : OfonoConnCtx :=
  { apn := apn, username := username, password := none, active := active,
    settings := some sample_settings }

/-- A world with the sample modem owning the sample context and nothing in
flight. -/
def sample_world (active : Bool) (apn username : Option String) : World :=
  { gconf := sample_gconf, modems := [sample_modem],
    ctxs := [some (sample_ctx active apn username)],
    datas := [], lists := [], handlers := [], weak_refs := [], idles := [], writes := [],
    next_handler := 0, next_source := 0, oom := false, trace := [] }

/-- The record `ofono_link_up "GPRS" 0 "net" 7 42` creates in a sample world. -/
def sample_request : connctx_data :=
  { network_id := "net", network_type := "GPRS", network_attrs := 0, link_up_cb := 7,
    link_up_cb_token := 42, md := 0, ctx := 0, timeout_id := 0, id := 1, connected := false }

/-- After link-up on an inactive context whose APN and username both differ:
two writes are outstanding. -/
def sample_syncing : World :=
  ofono_link_up "GPRS" 0 "net" 7 42 (sample_world false (some "old") (some "bob"))

/-- Two completions, the later write first, the first of them a failure. -/
def sample_picks : List (Nat × Option (Option String)) := [(1, some none), (0, none)]

/-- After link-up and activation: the finalization is scheduled as source 1. -/
def sample_scheduled : World :=
  run [Input.link_up "GPRS" 0 "net" 7 42, Input.active_changed 0 true]
    (sample_world false (some "internet") none)

/-- After the finalization ran: the request is connected. -/
def sample_connected : World :=
  run [Input.idle_dispatch 1] sample_scheduled

/-- The connected world at the moment the context has turned inactive and its
handler is about to run. -/
def sample_dropped : World :=
  { sample_connected with ctxs := [some (sample_ctx false (some "internet") none)] }

/-- The sample world after the modem has lost its context, the store still naming
`"/ctx1"`. -/
def sample_stale : World :=
  { sample_world false none none with modems := [{ sample_modem with contexts := [] }] }

/-- After link-up on the inactive sample context, at the moment the context has
turned active and its handler is about to run. -/
def sample_activated : World :=
  { ofono_link_up "GPRS" 0 "net" 7 42 (sample_world false (some "internet") none) with
    ctxs := [some (sample_ctx true (some "internet") none)] }

/-! ## Vocabulary of the statements -/

/-- An order of completions: the `k`-th pick names, by position, one of the
`n - k` writes still outstanding; there are at most `n` picks. -/
def valid_picks {α : Type} : Nat → List (Nat × α) → Bool
  | _, [] => true
  | 0, _ :: _ => false
  | n + 1, p :: rest => decide (p.1 < n + 1) && valid_picks n rest

/-- How many of APN, username and password of the context differ from the values
configured for the network id. -/
def differing_fields (g : GConf) (network_id : String) (ctx : OfonoConnCtx) : Nat :=
  (if ctx.apn = icd_gconf_get_iap_string g network_id "gprs_accesspointname" then 0 else 1) +
  (if ctx.username = icd_gconf_get_iap_string g network_id "gprs_username" then 0 else 1) +
  (if ctx.password = icd_gconf_get_iap_string g network_id "gprs_password" then 0 else 1)

/-- How the heap of request records may change: it only grows, a record that is
still there was there before with its `connected` flag related by `R`, and a
record that was not there before has a flag `false` is related to. -/
def Evolves (R : Bool → Bool → Prop) (ds ds' : List (Option connctx_data)) : Prop :=
  ds.length ≤ ds'.length ∧
  ∀ d r', heap_get ds' d = some r' →
    (d < ds.length → ∃ r, heap_get ds d = some r ∧ R r.connected r'.connected) ∧
    (ds.length ≤ d → R false r'.connected)

/-- The world `_link_up_idle` has built when it calls `link_up_cb` (lines 47-107):
the store rewritten by its first half, `timeout_id` cleared. -/
def world_at_link_up_cb (d : Nat) (data : connctx_data) (s : OfonoConnCtxSettings)
    (w : World) : World :=
  { w with gconf := (link_up_idle_hack w.gconf data.network_id s).1,
           datas := w.datas.set d (some { data with timeout_id := 0 }) }

/-- What `_link_up_idle` does from the call of `link_up_cb` on (lines 108-114): the
callback, `connected = TRUE`, and the two restores. -/
def link_up_idle_finish (d : Nat) (data : connctx_data) (s : OfonoConnCtxSettings)
    (ipv4_type : String) (ipv4_autodns : Bool) (w : World) : World :=
  let w := w.emit (Event.link_up_cb data.link_up_cb
    icd_nw_status.ICD_NW_SUCCESS_NEXT_LAYER none s.ifname data.link_up_cb_token)
  let data1 := { data with timeout_id := 0, connected := true }
  let w := { w with datas := w.datas.set d (some data1) }
  let w := w.set_iap_bool data.network_id "ipv4_autodns" ipv4_autodns
  w.set_iap_string data.network_id "ipv4_type" (some ipv4_type)

/-- The world `ofono_link_up` has built at line 336, on a resolved context: the
record is allocated and filled in and its handler is subscribed. -/
def link_up_allocated (network_type : String) (network_attrs : Nat) (network_id : String)
    (link_up_cb token md c : Nat) (w : World) : World :=
  { w with
    handlers := w.handlers ++ [(c, w.next_handler + 1, w.datas.length)],
    next_handler := w.next_handler + 1,
    datas := w.datas ++ [some
      { network_id := network_id, network_type := network_type,
        network_attrs := network_attrs, link_up_cb := link_up_cb,
        link_up_cb_token := token, md := md, ctx := c, timeout_id := 0,
        id := w.next_handler + 1, connected := false }] }

/-- The three fields `connctx_activate` compares, in its order: property name,
the context's current value, the configured value. -/
def property_candidates (g : GConf) (network_id : String) (ctx : OfonoConnCtx) :
    List (String × Option String × Option String) :=
  [("AccessPointName", ctx.apn, icd_gconf_get_iap_string g network_id "gprs_accesspointname"),
   ("Username", ctx.username, icd_gconf_get_iap_string g network_id "gprs_username"),
   ("Password", ctx.password, icd_gconf_get_iap_string g network_id "gprs_password")]

/-- The fields among them whose current value differs from the configured one. -/
def properties_to_write (g : GConf) (network_id : String) (ctx : OfonoConnCtx) :
    List (String × Option String × Option String) :=
  (property_candidates g network_id ctx).filter (fun t => decide (t.2.1 ≠ t.2.2))

/-! ## Lemmas -/

/-! ### Strings, heaps and lists -/

/-- `strcmp_chars` returns zero exactly on equal lists. -/
theorem strcmp_chars_eq_zero (a b : List Char) : strcmp_chars a b = 0 ↔ a = b := by
  induction a generalizing b with
  | nil => cases b <;> simp [strcmp_chars]
  | cons x xs ih =>
    cases b with
    | nil => simp [strcmp_chars]
    | cons y ys =>
      unfold strcmp_chars
      by_cases h1 : x.toNat < y.toNat
      · have : x ≠ y := by rintro rfl; omega
        simp [h1, this]
      · by_cases h2 : y.toNat < x.toNat
        · have : x ≠ y := by rintro rfl; omega
          simp [h1, h2, this]
        · have hxy : x = y := by
            apply Char.ext
            apply UInt32.ext
            have : x.toNat = y.toNat := by omega
            exact this
          simp [h1, h2, ih, hxy]

/-- `strcmp` returns zero exactly on equal strings. -/
theorem strcmp_eq_zero (a b : String) : strcmp a b = 0 ↔ a = b := by
  unfold strcmp
  rw [strcmp_chars_eq_zero]
  exact ⟨fun h => String.ext h, fun h => by rw [h]⟩

/-- `g_strcmp0` returns zero exactly on equal arguments, NULL included. -/
theorem g_strcmp0_eq_zero (a b : Option String) : g_strcmp0 a b = 0 ↔ a = b := by
  cases a <;> cases b <;> simp [g_strcmp0, strcmp_eq_zero]

/-- A pointer that reads as present is in range. -/
theorem heap_get_some_lt {α : Type} (h : List (Option α)) (p : Nat) (v : α)
    (hv : heap_get h p = some v) : p < h.length := by
  unfold heap_get at hv
  by_contra hlt
  have : h[p]? = none := by simp; omega
  simp [this] at hv

/-- Reading the cell just written. -/
theorem heap_get_set_self {α : Type} (h : List (Option α)) (p : Nat) (v : Option α)
    (hp : p < h.length) : heap_get (h.set p v) p = v := by
  unfold heap_get
  simp [List.getElem?_set, hp]
  cases v <;> simp

/-- Writing one cell leaves the others. -/
theorem heap_get_set_ne {α : Type} (h : List (Option α)) (p q : Nat) (v : Option α)
    (hpq : q ≠ p) : heap_get (h.set q v) p = heap_get h p := by
  unfold heap_get
  simp [List.getElem?_set, hpq]

/-- The cell just allocated. -/
theorem heap_get_append_length {α : Type} (h : List (Option α)) (v : Option α) :
    heap_get (h ++ [v]) h.length = v := by
  unfold heap_get
  simp
  cases v <;> simp

/-- The cell just allocated, when it holds a value. -/
theorem heap_get_append_length_some {α : Type} (h : List (Option α)) (v : α) :
    heap_get (h ++ [some v]) h.length = some v := heap_get_append_length h (some v)

/-- Allocation leaves the older cells. -/
theorem heap_get_append_lt {α : Type} (h : List (Option α)) (v : Option α) (p : Nat)
    (hp : p < h.length) : heap_get (h ++ [v]) p = heap_get h p := by
  unfold heap_get
  simp [List.getElem?_append_left, hp]

/-- Overwriting the cell just allocated. -/
theorem set_append_length {α : Type} (h : List α) (a b : α) :
    (h ++ [a]).set h.length b = h ++ [b] := by
  induction h with
  | nil => rfl
  | cons x xs ih => simp [ih]

/-- A map from which key `c` was removed has no entry for `c`. -/
theorem lookup_filter_ne (c : Nat) (l : List (Nat × Nat)) :
    (l.filter (fun e => e.1 ≠ c)).lookup c = none := by
  induction l with
  | nil => rfl
  | cons x xs ih =>
    obtain ⟨a, b⟩ := x
    by_cases h : a = c
    · rw [List.filter_cons_of_neg (by simp [h])]
      exact ih
    · rw [List.filter_cons_of_pos (by simp [h])]
      have hb : (c == a) = false := beq_eq_false_iff_ne.mpr (fun h2 => h h2.symm)
      simp only [List.lookup, hb]
      exact ih

/-- The events recorded beyond a known prefix. -/
theorem since_append (w1 : World) (t es : List Event) (h : w1.trace = t ++ es) :
    w1.since t.length = es := by
  simp [World.since, h]

/-- With nothing outstanding there is nothing to pick. -/
theorem valid_picks_zero {α : Type} (picks : List (Nat × α)) (h : valid_picks 0 picks = true) :
    picks = [] := by
  cases picks with
  | nil => rfl
  | cons p rest => simp [valid_picks] at h

/-! ### The modem scan -/

/-- What the scan returns is the position of a modem with a valid, present SIM of that
IMSI. -/
theorem find_by_imsi_from_some (imsi : Option String) (l : List modem_data) (i md : Nat)
    (h : find_by_imsi_from imsi l i = some md) :
    ∃ m, i ≤ md ∧ l[md - i]? = some m ∧
      m.sim.valid = true ∧ m.sim.present = true ∧ g_strcmp0 m.sim.imsi imsi = 0 := by
  induction l generalizing i with
  | nil => simp [find_by_imsi_from] at h
  | cons x rest ih =>
    unfold find_by_imsi_from at h
    split at h
    · rename_i hc
      simp at h
      subst h
      simp at hc
      exact ⟨x, Nat.le_refl _, by simp, hc.1.1, hc.1.2, hc.2⟩
    · obtain ⟨m, h1, h2, h3⟩ := ih (i + 1) h
      refine ⟨m, by omega, ?_, h3⟩
      have : md - i = (md - (i + 1)) + 1 := by omega
      rw [this]
      simpa using h2

/-- `ofono_modem_find_by_imsi` returns a pointer into the directory, to a modem with a
valid, present SIM of that IMSI. -/
theorem find_by_imsi_valid (w : World) (imsi : Option String) (md : Nat)
    (h : ofono_modem_find_by_imsi w imsi = some md) :
    ∃ m, w.modems[md]? = some m ∧
      m.sim.valid = true ∧ m.sim.present = true ∧ g_strcmp0 m.sim.imsi imsi = 0 := by
  obtain ⟨m, _, h2, h3⟩ := find_by_imsi_from_some imsi w.modems 0 md h
  exact ⟨m, by simpa using h2, h3⟩

/-! ### Property synchronisation -/

/-- One completion on a non-empty pending list: it logs, drops the head, and requests
activation exactly when the list became empty. -/
theorem set_string_complete_cons (c l : Nat) (error : Option (Option String)) (w : World)
    (name : String) (rest : List String) (h : w.list l = some (name :: rest)) :
    ∃ e, Event.is_set_string e = false ∧ Event.is_activate e = false ∧
      (ofono_connctx_set_string_complete c error l w).writes = w.writes ∧
      (rest = [] →
        (ofono_connctx_set_string_complete c error l w).trace
          = w.trace ++ [e, Event.activate c]) ∧
      (rest ≠ [] →
        (ofono_connctx_set_string_complete c error l w).trace = w.trace ++ [e] ∧
        (ofono_connctx_set_string_complete c error l w).list l = some rest) := by
  have hl : l < w.lists.length := heap_get_some_lt _ _ _ h
  unfold ofono_connctx_set_string_complete
  rw [h]
  cases error with
  | none =>
    refine ⟨Event.property_log name none, rfl, rfl, ?_⟩
    cases rest with
    | nil => simp [World.emit, ofono_connctx_activate]
    | cons y ys => simp [World.emit, World.list, heap_get_set_self, hl]
  | some m =>
    refine ⟨Event.property_log name (some (m.getD "Unknown error")), rfl, rfl, ?_⟩
    cases rest with
    | nil => simp [World.emit, ofono_connctx_activate]
    | cons y ys => simp [World.emit, World.list, heap_get_set_self, hl]

/-- Completions delivered in any order to the outstanding writes of one pending list: no
write is issued, and activation is requested once, by the completion that empties
the list. -/
theorem completions_trace (c l : Nat) (pre : List PendingWrite)
    (picks : List (Nat × Option (Option String))) :
    ∀ (rem : Nat) (w : World) (ws : List PendingWrite) (names : List String),
      w.writes = pre ++ ws → ws.length = rem + 1 →
      (∀ x ∈ ws, x.ctx = c ∧ x.arg = l) →
      w.list l = some names → names.length = rem + 1 →
      valid_picks (rem + 1) picks = true →
      ∃ es, (run (picks.map (fun p => Input.write_complete (pre.length + p.1) p.2)) w).trace
            = w.trace ++ es ∧
        es.filter Event.is_set_string = [] ∧
        es.filter Event.is_activate
          = if picks.length = rem + 1 then [Event.activate c] else [] := by
  induction picks with
  | nil =>
    intro rem w ws names _ _ _ _ _ _
    exact ⟨[], by simp [run], rfl, by simp⟩
  | cons p rest ih =>
    intro rem w ws names hw hlen hall hl hn hv
    simp only [valid_picks, Bool.and_eq_true, decide_eq_true_eq] at hv
    obtain ⟨hp, hv⟩ := hv
    have hidx : w.writes[pre.length + p.1]? = ws[p.1]? := by
      rw [hw, List.getElem?_append_right (by omega)]
      congr 1
      omega
    have hlt : p.1 < ws.length := by omega
    have hget : ws[p.1]? = some (ws[p.1]) := List.getElem?_eq_getElem hlt
    obtain ⟨hwc, hwa⟩ := hall _ (List.getElem_mem hlt)
    cases names with
    | nil => simp at hn
    | cons name ns =>
      have hl2 : World.list { w with writes := w.writes.eraseIdx (pre.length + p.1) } l
          = some (name :: ns) := hl
      obtain ⟨e, he1, he2, hwr, hnil, hcons⟩ :=
        set_string_complete_cons c l p.2 _ name ns hl2
      simp only [List.map_cons, run, step, hidx, hget, hwc, hwa]
      cases rem with
      | zero =>
        have hns : ns = [] := by
          simp at hn
          exact hn
        cases rest with
        | cons q qs => simp [valid_picks] at hv
        | nil =>
          refine ⟨[e, Event.activate c], ?_, ?_, ?_⟩
          · simpa [run] using hnil hns
          · rw [List.filter_cons_of_neg (by simp [he1])]; rfl
          · rw [List.filter_cons_of_neg (by simp [he2])]; rfl
      | succ rem =>
        have hns : ns ≠ [] := by
          intro h0
          simp [h0] at hn
        obtain ⟨htr, hlist⟩ := hcons hns
        have hw2 : (ofono_connctx_set_string_complete c p.2 l
            { w with writes := w.writes.eraseIdx (pre.length + p.1) }).writes
              = pre ++ ws.eraseIdx p.1 := by
          rw [hwr]
          simp only
          rw [hw, List.eraseIdx_append_of_length_le (by omega)]
          congr 2
          omega
        obtain ⟨es, h1, h2, h3⟩ := ih rem _ (ws.eraseIdx p.1) ns hw2
          (by rw [List.length_eraseIdx]; simp [hlt]; omega)
          (fun x hx => hall x (List.mem_of_mem_eraseIdx hx))
          hlist (by simpa using hn) hv
        refine ⟨e :: es, ?_, ?_, ?_⟩
        · rw [h1, htr]
          simp
        · rw [List.filter_cons_of_neg (by simp [he1]), h2]
        · rw [List.filter_cons_of_neg (by simp [he2]), h3]; simp

/-- What `connctx_activate` with `activate = true` leaves behind: either no field
differed and activation is requested at once, or one write per differing field is
outstanding on a fresh pending list of that length. -/
theorem connctx_activate_sync (w : World) (d : Nat) (data : connctx_data) (ctx : OfonoConnCtx)
    (hd : w.data d = some data) (hc : w.ctx data.ctx = some ctx) :
    (differing_fields w.gconf data.network_id ctx = 0 →
      (connctx_activate d true w).trace = w.trace ++ [Event.activate data.ctx] ∧
      (connctx_activate d true w).writes = w.writes) ∧
    (differing_fields w.gconf data.network_id ctx ≠ 0 →
      ∃ ws names es,
        (connctx_activate d true w).writes = w.writes ++ ws ∧
        ws.length = differing_fields w.gconf data.network_id ctx ∧
        (∀ x ∈ ws, x.ctx = data.ctx ∧ x.arg = w.lists.length) ∧
        (connctx_activate d true w).list w.lists.length = some names ∧
        names.length = differing_fields w.gconf data.network_id ctx ∧
        (connctx_activate d true w).trace = w.trace ++ es ∧
        (es.filter Event.is_set_string).length
          = differing_fields w.gconf data.network_id ctx ∧
        es.filter Event.is_activate = []) := by
  unfold connctx_activate differing_fields
  simp only [hd, hc, if_true]
  by_cases h1 : ctx.apn
      = icd_gconf_get_iap_string w.gconf data.network_id "gprs_accesspointname" <;>
  by_cases h2 : ctx.username
      = icd_gconf_get_iap_string w.gconf data.network_id "gprs_username" <;>
  by_cases h3 : ctx.password
      = icd_gconf_get_iap_string w.gconf data.network_id "gprs_password" <;>
  simp [sync_property, g_strcmp0_eq_zero, h1, h2, h3, World.list, heap_get_append_length,
    set_append_length, ofono_connctx_set_string_full, ofono_connctx_activate, World.emit,
    List.filter, Event.is_set_string, Event.is_activate]

/-! ### Finalization and the store -/

/-- The locals of `_link_up_idle` are the values read at entry, with their defaults. -/
theorem link_up_idle_hack_locals (g : GConf) (net_id : String) (s : OfonoConnCtxSettings) :
    (link_up_idle_hack g net_id s).2.1
        = (icd_gconf_get_iap_string g net_id "ipv4_type").getD "AUTO" ∧
      (link_up_idle_hack g net_id s).2.2
        = ofono_icd_gconf_get_iap_bool g net_id "ipv4_autodns" true := by
  unfold link_up_idle_hack
  cases icd_gconf_get_iap_string g net_id "ipv4_type" <;> simp

/-- The store after `_link_up_idle`: the rewrite, then the two restores. -/
theorem link_up_idle_gconf (w : World) (d : Nat) (data : connctx_data) (ctx : OfonoConnCtx)
    (s : OfonoConnCtxSettings)
    (hd : w.data d = some data) (hc : w.ctx data.ctx = some ctx) (hs : ctx.settings = some s) :
    (_link_up_idle d w).1.gconf =
      ofono_icd_gconf_set_iap_string
        (ofono_icd_gconf_set_iap_bool (link_up_idle_hack w.gconf data.network_id s).1
          data.network_id "ipv4_autodns" (link_up_idle_hack w.gconf data.network_id s).2.2)
        data.network_id "ipv4_type" (some (link_up_idle_hack w.gconf data.network_id s).2.1) := by
  unfold _link_up_idle
  simp only [hd, hc, hs]
  rfl

/-! ### Teardown and the request map -/

/-- The teardown routine records one event. -/
theorem handler_data_destroy_trace (d : Nat) (w : World) :
    (ofono_connctx_handler_data_destroy d w).trace = w.trace ++ [Event.fault] ∨
      (ofono_connctx_handler_data_destroy d w).trace = w.trace ++ [Event.destroyed d] := by
  unfold ofono_connctx_handler_data_destroy
  cases w.data d with
  | none => left; rfl
  | some data =>
    right
    by_cases h : data.timeout_id = 0 <;>
      simp [h, World.emit, g_object_weak_unref, ofono_connctx_remove_handler, g_source_remove]

/-- The teardown routine on a live record frees it and touches neither the map, the
writes, the store nor the contexts. -/
theorem handler_data_destroy_of_data (d : Nat) (w : World) (data : connctx_data)
    (hd : w.data d = some data) :
    (ofono_connctx_handler_data_destroy d w).trace = w.trace ++ [Event.destroyed d] ∧
      (ofono_connctx_handler_data_destroy d w).modems = w.modems ∧
      (ofono_connctx_handler_data_destroy d w).datas = w.datas.set d none ∧
      (ofono_connctx_handler_data_destroy d w).writes = w.writes ∧
      (ofono_connctx_handler_data_destroy d w).gconf = w.gconf ∧
      (ofono_connctx_handler_data_destroy d w).ctxs = w.ctxs := by
  unfold ofono_connctx_handler_data_destroy
  rw [hd]
  by_cases h : data.timeout_id = 0 <;>
    simp [h, World.emit, g_object_weak_unref, ofono_connctx_remove_handler, g_source_remove]

/-- The teardown routine never touches the modem directory. -/
theorem handler_data_destroy_modems (d : Nat) (w : World) :
    (ofono_connctx_handler_data_destroy d w).modems = w.modems := by
  unfold ofono_connctx_handler_data_destroy
  cases w.data d with
  | none => rfl
  | some data =>
    by_cases h : data.timeout_id = 0 <;>
      simp [h, World.emit, g_object_weak_unref, ofono_connctx_remove_handler, g_source_remove]

/-- Removal from the request map records only teardown events. -/
theorem hash_table_remove_trace (md c : Nat) (w : World) :
    ∃ es, (g_hash_table_remove md c w).trace = w.trace ++ es ∧
      ∀ e ∈ es, e = Event.fault ∨ ∃ d, e = Event.destroyed d := by
  unfold g_hash_table_remove
  cases w.modems[md]? with
  | none => exact ⟨[Event.fault], rfl, by simp⟩
  | some m =>
    cases hl : m.ctxhd.lookup c with
    | none => exact ⟨[], by simp [hl], by simp⟩
    | some d =>
      simp only [hl]
      rcases handler_data_destroy_trace d _ with h | h
      · exact ⟨[Event.fault], h, by simp⟩
      · exact ⟨[Event.destroyed d], h, by simp⟩

/-- Removing the entry of a live record tears that record down. -/
theorem hash_table_remove_registered (md c d : Nat) (w : World) (m : modem_data)
    (data : connctx_data) (hm : w.modems[md]? = some m) (hreg : m.ctxhd.lookup c = some d)
    (hd : w.data d = some data) :
    (g_hash_table_remove md c w).trace = w.trace ++ [Event.destroyed d] ∧
      (g_hash_table_remove md c w).modems
        = w.modems.set md { m with ctxhd := m.ctxhd.filter (fun e => e.1 ≠ c) } ∧
      (g_hash_table_remove md c w).datas = w.datas.set d none ∧
      (g_hash_table_remove md c w).writes = w.writes ∧
      (g_hash_table_remove md c w).gconf = w.gconf ∧
      (g_hash_table_remove md c w).ctxs = w.ctxs := by
  unfold g_hash_table_remove
  simp only [hm, hreg]
  exact handler_data_destroy_of_data d _ data hd

/-- Removing a key the map does not hold changes nothing. -/
theorem hash_table_remove_absent (md c : Nat) (w : World) (m : modem_data)
    (hm : w.modems[md]? = some m) (hl : m.ctxhd.lookup c = none) :
    g_hash_table_remove md c w = w := by
  unfold g_hash_table_remove
  simp only [hm, hl]

/-- After a removal the map holds no entry for the key. -/
theorem hash_table_remove_clears (md c : Nat) (w : World) (m : modem_data)
    (hm : w.modems[md]? = some m) :
    ∃ m', (g_hash_table_remove md c w).modems[md]? = some m' ∧ m'.ctxhd.lookup c = none := by
  unfold g_hash_table_remove
  simp only [hm]
  cases hl : m.ctxhd.lookup c with
  | none => exact ⟨m, hm, hl⟩
  | some d =>
    dsimp only
    rw [handler_data_destroy_modems]
    have hlt : md < w.modems.length := by
      by_contra h
      have : w.modems[md]? = none := by simp; omega
      rw [this] at hm
      cases hm
    exact ⟨{ m with ctxhd := m.ctxhd.filter (fun e => e.1 ≠ c) },
      by simp [List.getElem?_set, hlt], lookup_filter_ne c m.ctxhd⟩

/-! ### Link-up on a resolved context -/

/-- `ofono_link_up` on a resolved context that tracks no request yet: the record is
created, subscribed and registered, then the activation driver runs. -/
theorem link_up_resolved_world (network_type : String) (network_attrs : Nat)
    (network_id : String) (cb token : Nat) (w : World) (imsi cid : String) (md c : Nat)
    (m : modem_data) (ctx : OfonoConnCtx)
    (hi : icd_gconf_get_iap_string w.gconf network_id SIM_IMSI = some imsi)
    (hf : ofono_modem_find_by_imsi w (some imsi) = some md)
    (hm : w.modems[md]? = some m)
    (hcid : icd_gconf_get_iap_string w.gconf network_id "context_id" = some cid)
    (hne : cid ≠ "")
    (hx : ofono_modem_get_context_by_id m (some cid) = some c)
    (hc : w.ctx c = some ctx)
    (hoom : w.oom = false)
    (hreg : m.ctxhd.lookup c = none) :
    ofono_link_up network_type network_attrs network_id cb token w =
      connctx_activate w.datas.length (!ctx.active)
        { w with
          handlers := w.handlers ++ [(c, w.next_handler + 1, w.datas.length)],
          next_handler := w.next_handler + 1,
          datas := w.datas ++ [some
            { network_id := network_id, network_type := network_type,
              network_attrs := network_attrs, link_up_cb := cb, link_up_cb_token := token,
              md := md, ctx := c, timeout_id := 0, id := w.next_handler + 1,
              connected := false }],
          modems := w.modems.set md
            { m with ctxhd := (c, w.datas.length) :: m.ctxhd.filter (fun e => e.1 ≠ c) },
          weak_refs := w.weak_refs ++ [(c, w.datas.length)] } := by
  unfold ofono_link_up
  simp only [hi, hf, hm, hcid, hne, hx, hoom, if_false, Bool.false_eq_true,
    ofono_connctx_add_active_changed_handler, g_hash_table_insert, hreg, g_object_weak_ref,
    World.ctx, hc]
  rw [World.ctx] at hc
  simp only [hc]

/-! ### How request records evolve -/

/-- Nothing changed. -/
theorem Evolves.refl {R : Bool → Bool → Prop} (hR : ∀ b, R b b)
    (ds : List (Option connctx_data)) : Evolves R ds ds := by
  refine ⟨Nat.le_refl _, fun d r' h => ⟨fun _ => ⟨r', h, hR _⟩, fun hle => ?_⟩⟩
  have := heap_get_some_lt _ _ _ h
  omega

/-- One change after another. -/
theorem Evolves.trans {R : Bool → Bool → Prop} (hR : ∀ a b c, R a b → R b c → R a c)
    {ds1 ds2 ds3 : List (Option connctx_data)} (h12 : Evolves R ds1 ds2)
    (h23 : Evolves R ds2 ds3) : Evolves R ds1 ds3 := by
  refine ⟨Nat.le_trans h12.1 h23.1, fun d r3 h3 => ?_⟩
  obtain ⟨hlt23, hge23⟩ := h23.2 d r3 h3
  constructor
  · intro hlt
    obtain ⟨r2, h2, hr23⟩ := hlt23 (Nat.lt_of_lt_of_le hlt h12.1)
    obtain ⟨r1, h1, hr12⟩ := (h12.2 d r2 h2).1 hlt
    exact ⟨r1, h1, hR _ _ _ hr12 hr23⟩
  · intro hge
    by_cases hd : d < ds2.length
    · obtain ⟨r2, h2, hr23⟩ := hlt23 hd
      exact hR _ _ _ ((h12.2 d r2 h2).2 hge) hr23
    · exact hge23 (by omega)

/-- A weaker relation on the flags. -/
theorem Evolves.mono {R R' : Bool → Bool → Prop} (hR : ∀ a b, R a b → R' a b)
    {ds ds' : List (Option connctx_data)} (h : Evolves R ds ds') : Evolves R' ds ds' := by
  refine ⟨h.1, fun d r' hr' => ⟨fun hlt => ?_, fun hge => hR _ _ ((h.2 d r' hr').2 hge)⟩⟩
  obtain ⟨r, h1, h2⟩ := (h.2 d r' hr').1 hlt
  exact ⟨r, h1, hR _ _ h2⟩

/-- Freeing a record. -/
theorem evolves_free {R : Bool → Bool → Prop} (hR : ∀ b, R b b)
    (ds : List (Option connctx_data)) (p : Nat) : Evolves R ds (ds.set p none) := by
  refine ⟨by simp, fun d r' h => ?_⟩
  have hlt := heap_get_some_lt _ _ _ h
  simp at hlt
  by_cases hpd : p = d
  · subst hpd
    rw [heap_get_set_self _ _ _ hlt] at h
    cases h
  · rw [heap_get_set_ne _ _ _ _ hpd] at h
    exact ⟨fun _ => ⟨r', h, hR _⟩, fun hge => by omega⟩

/-- Overwriting a live record. -/
theorem evolves_update {R : Bool → Bool → Prop} (hR : ∀ b, R b b)
    (ds : List (Option connctx_data)) (p : Nat) (r0 r1 : connctx_data)
    (h0 : heap_get ds p = some r0) (h01 : R r0.connected r1.connected) :
    Evolves R ds (ds.set p (some r1)) := by
  refine ⟨by simp, fun d r' h => ?_⟩
  have hlt := heap_get_some_lt _ _ _ h
  simp at hlt
  by_cases hpd : p = d
  · subst hpd
    rw [heap_get_set_self _ _ _ hlt] at h
    cases h
    exact ⟨fun _ => ⟨r0, h0, h01⟩, fun hge => by omega⟩
  · rw [heap_get_set_ne _ _ _ _ hpd] at h
    exact ⟨fun _ => ⟨r', h, hR _⟩, fun hge => by omega⟩

/-- Allocating a record. -/
theorem evolves_alloc {R : Bool → Bool → Prop} (hR : ∀ b, R b b)
    (ds : List (Option connctx_data)) (r1 : connctx_data) (h1 : R false r1.connected) :
    Evolves R ds (ds ++ [some r1]) := by
  refine ⟨by simp, fun d r' h => ?_⟩
  have hlt := heap_get_some_lt _ _ _ h
  simp at hlt
  by_cases hd : d < ds.length
  · rw [heap_get_append_lt _ _ _ hd] at h
    exact ⟨fun _ => ⟨r', h, hR _⟩, fun hge => by omega⟩
  · have hde : d = ds.length := by omega
    subst hde
    rw [heap_get_append_length] at h
    cases h
    exact ⟨fun hlt2 => by omega, fun _ => h1⟩

/-- A write completion touches no request record. -/
theorem set_string_complete_datas (c l : Nat) (error : Option (Option String)) (w : World) :
    (ofono_connctx_set_string_complete c error l w).datas = w.datas := by
  unfold ofono_connctx_set_string_complete
  cases w.list l with
  | none => rfl
  | some names =>
    cases names with
    | nil => rfl
    | cons n rest => cases error <;> cases rest <;> rfl

/-- A compare-and-write block touches no request record. -/
theorem sync_property_datas (c : Nat) (cur : Option String) (name : String)
    (s : Option String) (l : Nat) (w : World) :
    (sync_property c cur name s l w).datas = w.datas := by
  unfold sync_property
  split <;> rfl

/-- The activation driver touches no request record. -/
theorem connctx_activate_datas (d : Nat) (a : Bool) (w : World) :
    (connctx_activate d a w).datas = w.datas := by
  unfold connctx_activate
  cases w.data d with
  | none => rfl
  | some data =>
    cases a with
    | false => rfl
    | true =>
      dsimp only
      cases w.ctx data.ctx with
      | none => rfl
      | some ctx =>
        simp only [if_true]
        split <;> simp [ofono_connctx_activate, World.emit, sync_property_datas]

/-- The teardown routine only frees. -/
theorem handler_data_destroy_evolves (d : Nat) (w : World) :
    Evolves Eq w.datas (ofono_connctx_handler_data_destroy d w).datas := by
  unfold ofono_connctx_handler_data_destroy
  cases w.data d with
  | none => exact Evolves.refl (fun _ => rfl) _
  | some data =>
    have hsrc : ∀ w0 : World,
        (if data.timeout_id ≠ 0 then g_source_remove data.timeout_id w0 else w0).datas
          = w0.datas := by
      intro w0
      by_cases h : data.timeout_id = 0 <;> simp [h, g_source_remove]
    simp only [World.emit, hsrc, g_object_weak_unref, ofono_connctx_remove_handler]
    exact evolves_free (fun _ => rfl) _ _

/-- Map removal only frees. -/
theorem hash_table_remove_evolves (md c : Nat) (w : World) :
    Evolves Eq w.datas (g_hash_table_remove md c w).datas := by
  unfold g_hash_table_remove
  cases w.modems[md]? with
  | none => exact Evolves.refl (fun _ => rfl) _
  | some m =>
    dsimp only
    cases m.ctxhd.lookup c with
    | none => exact Evolves.refl (fun _ => rfl) _
    | some d =>
      exact handler_data_destroy_evolves d
        { w with modems := w.modems.set md { m with ctxhd := m.ctxhd.filter (fun e => e.1 ≠ c) } }

/-- Map insertion only frees. -/
theorem hash_table_insert_evolves (md c d : Nat) (w : World) :
    Evolves Eq w.datas (g_hash_table_insert md c d w).datas := by
  unfold g_hash_table_insert
  cases w.modems[md]? with
  | none => exact Evolves.refl (fun _ => rfl) _
  | some m =>
    dsimp only
    cases m.ctxhd.lookup c with
    | none => exact Evolves.refl (fun _ => rfl) _
    | some d0 =>
      exact handler_data_destroy_evolves d0
        { w with
          modems := w.modems.set md
            { m with ctxhd := (c, d) :: m.ctxhd.filter (fun e => e.1 ≠ c) } }

/-- The active-state handler never changes a `connected` flag. -/
theorem active_changed_cb_evolves (c d : Nat) (w : World) :
    Evolves Eq w.datas (_ctx_active_changed_cb c d w).datas := by
  unfold _ctx_active_changed_cb
  cases hc : w.ctx c with
  | none => exact Evolves.refl (fun _ => rfl) _
  | some ctx =>
    cases hd : w.data d with
    | none => exact Evolves.refl (fun _ => rfl) _
    | some data =>
      dsimp only
      cases hconn : data.connected <;> cases ha : ctx.active
      · simp only [Bool.false_eq_true, not_false_eq_true, if_true, if_false]
        rw [connctx_activate_datas]
        exact Evolves.refl (fun _ => rfl) _
      · simp only [Bool.false_eq_true, not_false_eq_true, if_true, g_idle_add]
        exact evolves_update (fun _ => rfl) _ _ data _ hd (by simp [hconn])
      · simp only [Bool.false_eq_true, not_true_eq_false, not_false_eq_true, if_true, if_false]
        exact hash_table_remove_evolves data.md c (w.emit _)
      · simp only [not_true_eq_false, if_false]
        exact Evolves.refl (fun _ => rfl) _

/-- The destruction notification never changes a `connected` flag. -/
theorem weak_notify_evolves (d c : Nat) (w : World) :
    Evolves Eq w.datas (_connctx_weak_notify d c w).datas := by
  unfold _connctx_weak_notify
  cases w.data d with
  | none => exact Evolves.refl (fun _ => rfl) _
  | some data =>
    dsimp only
    by_cases hconn : data.connected = true
    · simp only [hconn, if_true]
      exact hash_table_remove_evolves data.md c (w.emit _)
    · simp only [hconn, if_false]
      exact hash_table_remove_evolves data.md c w

/-- The finalization only ever sets a `connected` flag. -/
theorem link_up_idle_evolves (d : Nat) (w : World) :
    Evolves (fun a b => a = true → b = true) w.datas (_link_up_idle d w).1.datas := by
  unfold _link_up_idle
  cases hd : w.data d with
  | none => exact Evolves.refl (fun _ h => h) _
  | some data =>
    dsimp only
    cases w.ctx data.ctx with
    | none => exact Evolves.refl (fun _ h => h) _
    | some ctx =>
      dsimp only
      cases ctx.settings with
      | none => exact Evolves.refl (fun _ h => h) _
      | some s =>
        simp only [World.emit, World.set_iap_bool, World.set_iap_string, List.set_set]
        exact evolves_update (fun _ h => h) _ _ data _ hd (fun _ => rfl)

/-- Link-down never changes a `connected` flag. -/
theorem link_down_evolves (network_type : String) (network_attrs : Nat) (network_id : String)
    (interface_name : Option String) (cb token : Nat) (w : World) :
    Evolves Eq w.datas
      (ofono_link_down network_type network_attrs network_id interface_name cb token w).datas := by
  unfold ofono_link_down
  cases icd_gconf_get_iap_string w.gconf network_id SIM_IMSI with
  | none => exact Evolves.refl (fun _ => rfl) _
  | some imsi =>
    dsimp only
    cases ofono_modem_find_by_imsi w (some imsi) with
    | none => exact Evolves.refl (fun _ => rfl) _
    | some md =>
      dsimp only
      cases w.modems[md]? with
      | none => exact Evolves.refl (fun _ => rfl) _
      | some m =>
        dsimp only
        cases ofono_modem_get_context_by_id m
            (icd_gconf_get_iap_string w.gconf network_id "context_id") with
        | none => exact Evolves.refl (fun _ => rfl) _
        | some c =>
          dsimp only
          cases (g_hash_table_remove md c w).ctx c with
          | none => exact hash_table_remove_evolves md c w
          | some ctx =>
            dsimp only
            split <;> exact hash_table_remove_evolves md c w

/-- Link-up never changes a `connected` flag of an existing record and creates its own
with `false`. -/
theorem link_up_evolves (network_type : String) (network_attrs : Nat) (network_id : String)
    (cb token : Nat) (w : World) :
    Evolves Eq w.datas
      (ofono_link_up network_type network_attrs network_id cb token w).datas := by
  unfold ofono_link_up
  cases icd_gconf_get_iap_string w.gconf network_id SIM_IMSI with
  | none => exact Evolves.refl (fun _ => rfl) _
  | some imsi =>
    dsimp only
    cases ofono_modem_find_by_imsi w (some imsi) with
    | none => exact Evolves.refl (fun _ => rfl) _
    | some md =>
      dsimp only
      cases w.modems[md]? with
      | none => exact Evolves.refl (fun _ => rfl) _
      | some m =>
        dsimp only
        cases icd_gconf_get_iap_string w.gconf network_id "context_id" with
        | none => exact Evolves.refl (fun _ => rfl) _
        | some cid =>
          dsimp only
          split
          · exact Evolves.refl (fun _ => rfl) _
          · cases ofono_modem_get_context_by_id m (some cid) with
            | none => exact Evolves.refl (fun _ => rfl) _
            | some c =>
              dsimp only
              split
              · exact Evolves.refl (fun _ => rfl) _
              · have h1 := evolves_alloc (R := Eq) (fun _ => rfl) w.datas
                  { network_id := network_id, network_type := network_type,
                    network_attrs := network_attrs, link_up_cb := cb,
                    link_up_cb_token := token, md := md, ctx := c,
                    timeout_id := 0, id := w.next_handler + 1, connected := false } rfl
                have h2 := hash_table_insert_evolves md c w.datas.length
                  { (ofono_connctx_add_active_changed_handler c w.datas.length w).1 with
                    datas := w.datas ++ [some
                      { network_id := network_id, network_type := network_type,
                        network_attrs := network_attrs, link_up_cb := cb,
                        link_up_cb_token := token, md := md, ctx := c,
                        timeout_id := 0, id := w.next_handler + 1, connected := false }] }
                have h12 := Evolves.trans (fun _ _ _ h h2 => h.trans h2) h1 h2
                split
                · exact h12
                · rw [connctx_activate_datas]
                  exact h12

/-- Signal emission never changes a `connected` flag. -/
theorem dispatch_active_changed_evolves (c : Nat) (hs : List (Nat × Nat × Nat)) :
    ∀ w : World, Evolves Eq w.datas (dispatch_active_changed c hs w).datas := by
  induction hs with
  | nil => exact fun w => Evolves.refl (fun _ => rfl) _
  | cons h rest ih =>
    intro w
    unfold dispatch_active_changed
    refine Evolves.trans (fun _ _ _ h1 h2 => h1.trans h2) ?_ (ih _)
    split
    · exact active_changed_cb_evolves c h.2.2 w
    · exact Evolves.refl (fun _ => rfl) _

/-- Context finalization never changes a `connected` flag. -/
theorem dispatch_weak_notify_evolves (c : Nat) (rs : List (Nat × Nat)) :
    ∀ w : World, Evolves Eq w.datas (dispatch_weak_notify c rs w).datas := by
  induction rs with
  | nil => exact fun w => Evolves.refl (fun _ => rfl) _
  | cons r rest ih =>
    intro w
    unfold dispatch_weak_notify
    refine Evolves.trans (fun _ _ _ h1 h2 => h1.trans h2) ?_ (ih _)
    split
    · exact weak_notify_evolves r.2 c w
    · exact Evolves.refl (fun _ => rfl) _

/-- A delivery other than an idle dispatch never changes a `connected` flag. -/
theorem step_evolves_eq (i : Input) (w : World) (hi : ∀ tag, i ≠ Input.idle_dispatch tag) :
    Evolves Eq w.datas (step i w).datas := by
  cases i with
  | link_up ty attrs id cb token => exact link_up_evolves ty attrs id cb token w
  | link_down ty attrs id ifname cb token => exact link_down_evolves ty attrs id ifname cb token w
  | active_changed c active =>
    unfold step
    dsimp only
    cases w.ctx c with
    | none => exact Evolves.refl (fun _ => rfl) _
    | some ctx =>
      dsimp only
      split
      · exact Evolves.refl (fun _ => rfl) _
      · exact dispatch_active_changed_evolves c w.handlers
          { w with ctxs := w.ctxs.set c (some { ctx with active := active }) }
  | write_complete k error =>
    unfold step
    dsimp only
    cases w.writes[k]? with
    | none => exact Evolves.refl (fun _ => rfl) _
    | some wr =>
      dsimp only
      rw [set_string_complete_datas]
      exact Evolves.refl (fun _ => rfl) _
  | idle_dispatch tag => exact absurd rfl (hi tag)
  | ctx_destroyed c =>
    unfold step
    dsimp only
    cases w.ctx c with
    | none => exact Evolves.refl (fun _ => rfl) _
    | some ctx =>
      exact dispatch_weak_notify_evolves c w.weak_refs
        { w with weak_refs := w.weak_refs.filter (fun r => r.1 ≠ c) }
  | ctx_props c apn username password settings =>
    unfold step
    dsimp only
    cases w.ctx c with
    | none => exact Evolves.refl (fun _ => rfl) _
    | some ctx => exact Evolves.refl (fun _ => rfl) _

/-- No delivery clears a `connected` flag. -/
theorem step_evolves (i : Input) (w : World) :
    Evolves (fun a b => a = true → b = true) w.datas (step i w).datas := by
  by_cases hi : ∀ tag, i ≠ Input.idle_dispatch tag
  · exact Evolves.mono (fun a b h ha => h ▸ ha) (step_evolves_eq i w hi)
  · simp only [not_forall, not_not] at hi
    obtain ⟨tag, rfl⟩ := hi
    unfold step
    dsimp only
    cases w.idles.lookup tag with
    | none => exact Evolves.refl (fun _ h => h) _
    | some d =>
      dsimp only
      have h := link_up_idle_evolves d w
      split
      · exact h
      · exact h

/-- No sequence of deliveries clears a `connected` flag. -/
theorem run_evolves (inputs : List Input) :
    ∀ w : World, Evolves (fun a b => a = true → b = true) w.datas (run inputs w).datas := by
  induction inputs with
  | nil => exact fun w => Evolves.refl (fun _ h => h) _
  | cons i rest ih =>
    intro w
    exact Evolves.trans (fun _ _ _ h1 h2 h => h2 (h1 h)) (step_evolves i w) (ih _)

/-- An idle dispatch allocates no record. -/
theorem idle_dispatch_length (tag : Nat) (w : World) :
    (step (Input.idle_dispatch tag) w).datas.length = w.datas.length := by
  unfold step
  dsimp only
  cases w.idles.lookup tag with
  | none => rfl
  | some d =>
    dsimp only
    have h : (_link_up_idle d w).1.datas.length = w.datas.length := by
      unfold _link_up_idle
      cases w.data d with
      | none => rfl
      | some data =>
        dsimp only
        cases w.ctx data.ctx with
        | none => rfl
        | some ctx =>
          dsimp only
          cases ctx.settings with
          | none => rfl
          | some s => simp [World.emit, World.set_iap_bool, World.set_iap_string]
    split
    · exact h
    · exact h

/-! ## Claims -/

/-- C1: when `ofono_link_up` cannot resolve a SIM identity, a modem with that
identity, a non-empty `context_id` or a context object for it, it calls
`link_up_cb` exactly once, with `ICD_NW_ERROR`, `"no_network"`, no interface name
and the caller's token, and the request map, the records, the subscriptions and
the outstanding writes are what they were. -/
theorem link_up_unresolved_reports_no_network
    (network_type : String) (network_attrs : Nat) (network_id : String)
    (link_up_cb token : Nat) (w : World)
    (h : icd_gconf_get_iap_string w.gconf network_id SIM_IMSI = none ∨
      (∃ imsi, icd_gconf_get_iap_string w.gconf network_id SIM_IMSI = some imsi ∧
        ofono_modem_find_by_imsi w (some imsi) = none) ∨
      icd_gconf_get_iap_string w.gconf network_id "context_id" = none ∨
      icd_gconf_get_iap_string w.gconf network_id "context_id" = some "" ∨
      (∃ imsi md m context_id,
        icd_gconf_get_iap_string w.gconf network_id SIM_IMSI = some imsi ∧
        ofono_modem_find_by_imsi w (some imsi) = some md ∧
        w.modems[md]? = some m ∧
        icd_gconf_get_iap_string w.gconf network_id "context_id" = some context_id ∧
        ofono_modem_get_context_by_id m (some context_id) = none)) :
    (ofono_link_up network_type network_attrs network_id link_up_cb token w).trace =
        w.trace ++ [Event.link_up_cb link_up_cb icd_nw_status.ICD_NW_ERROR
          (some "no_network") none token] ∧
      (ofono_link_up network_type network_attrs network_id link_up_cb token w).modems
        = w.modems ∧
      (ofono_link_up network_type network_attrs network_id link_up_cb token w).datas
        = w.datas ∧
      (ofono_link_up network_type network_attrs network_id link_up_cb token w).handlers
        = w.handlers ∧
      (ofono_link_up network_type network_attrs network_id link_up_cb token w).weak_refs
        = w.weak_refs ∧
      (ofono_link_up network_type network_attrs network_id link_up_cb token w).writes
        = w.writes := by
  unfold ofono_link_up
  cases hi : icd_gconf_get_iap_string w.gconf network_id SIM_IMSI with
  | none => simp [World.emit, hi]
  | some imsi =>
    cases hm : ofono_modem_find_by_imsi w (some imsi) with
    | none => simp [World.emit, hi, hm]
    | some md =>
      obtain ⟨m, hmd, -⟩ := find_by_imsi_valid w (some imsi) md hm
      cases hc : icd_gconf_get_iap_string w.gconf network_id "context_id" with
      | none => simp [World.emit, hmd, hi, hm, hc]
      | some cid =>
        by_cases he : cid = ""
        · simp [World.emit, hmd, he, hi, hm, hc]
        · cases hx : ofono_modem_get_context_by_id m (some cid) with
          | none => simp [World.emit, hmd, he, hx, World.set_iap_string, hi, hm, hc]
          | some c =>
            exfalso
            rcases h with h | ⟨i, h1, h2⟩ | h | h | ⟨i, md1, m1, cid1, h1, h2, h3, h4, h5⟩
            · simp [hi] at h
            · rw [hi] at h1; cases h1; rw [hm] at h2; cases h2
            · simp [hc] at h
            · rw [hc] at h; cases h; exact he rfl
            · rw [hi] at h1; cases h1; rw [hm] at h2; cases h2
              rw [hmd] at h3; cases h3; rw [hc] at h4; cases h4
              rw [hx] at h5; cases h5

/-- C1 at a network id the sample store has no SIM identity for. -/
theorem link_up_unresolved_reports_no_network_witness :
    (ofono_link_up "GPRS" 0 "other" 7 42 (sample_world false none none)).trace =
        (sample_world false none none).trace ++ [Event.link_up_cb 7 icd_nw_status.ICD_NW_ERROR
          (some "no_network") none 42] ∧
      (ofono_link_up "GPRS" 0 "other" 7 42 (sample_world false none none)).modems
        = (sample_world false none none).modems ∧
      (ofono_link_up "GPRS" 0 "other" 7 42 (sample_world false none none)).datas
        = (sample_world false none none).datas ∧
      (ofono_link_up "GPRS" 0 "other" 7 42 (sample_world false none none)).handlers
        = (sample_world false none none).handlers ∧
      (ofono_link_up "GPRS" 0 "other" 7 42 (sample_world false none none)).weak_refs
        = (sample_world false none none).weak_refs ∧
      (ofono_link_up "GPRS" 0 "other" 7 42 (sample_world false none none)).writes
        = (sample_world false none none).writes :=
  link_up_unresolved_reports_no_network "GPRS" 0 "other" 7 42 (sample_world false none none)
    (Or.inl (by decide))

/-- C2: `connctx_activate` with `activate = true` issues exactly as many property
writes as fields differ; whichever outstanding write completes next and whether
it failed, no activation is requested while fewer completions than writes have
run and exactly one once all have; with no differing field the activation is
requested inside the call. -/
theorem property_sync_countdown_barrier (w : World) (d : Nat) (data : connctx_data)
    (ctx : OfonoConnCtx) (picks : List (Nat × Option (Option String)))
    (hd : w.data d = some data) (hc : w.ctx data.ctx = some ctx)
    (hp : valid_picks (differing_fields w.gconf data.network_id ctx) picks = true) :
    (((connctx_activate d true w).since w.trace.length).filter Event.is_set_string).length
        = differing_fields w.gconf data.network_id ctx ∧
      (connctx_activate d true w).writes.length
        = w.writes.length + differing_fields w.gconf data.network_id ctx ∧
      (((run (picks.map (fun p => Input.write_complete (w.writes.length + p.1) p.2))
          (connctx_activate d true w)).since w.trace.length).filter
            Event.is_set_string).length
        = differing_fields w.gconf data.network_id ctx ∧
      ((run (picks.map (fun p => Input.write_complete (w.writes.length + p.1) p.2))
          (connctx_activate d true w)).since w.trace.length).filter Event.is_activate
        = (if picks.length = differing_fields w.gconf data.network_id ctx
            then [Event.activate data.ctx] else []) ∧
      (differing_fields w.gconf data.network_id ctx = 0 →
        (connctx_activate d true w).since w.trace.length = [Event.activate data.ctx]) := by
  obtain ⟨h0, h1⟩ := connctx_activate_sync w d data ctx hd hc
  by_cases hN : differing_fields w.gconf data.network_id ctx = 0
  · obtain ⟨ht, hw⟩ := h0 hN
    rw [hN] at hp
    have hpk := valid_picks_zero picks hp
    subst hpk
    have hs := since_append _ _ _ ht
    simp [hN, run, hs, hw, List.filter, Event.is_set_string, Event.is_activate]
  · obtain ⟨ws, names, es, hw, hwl, hall, hl, hnl, ht, hes, hea⟩ := h1 hN
    obtain ⟨n, hn⟩ : ∃ n, differing_fields w.gconf data.network_id ctx = n + 1 :=
      ⟨differing_fields w.gconf data.network_id ctx - 1, by omega⟩
    rw [hn] at hp
    obtain ⟨es2, hr, hr1, hr2⟩ := completions_trace data.ctx w.lists.length w.writes picks n
      (connctx_activate d true w) ws names hw (by omega) hall hl (by omega) hp
    have hs := since_append _ _ _ ht
    have hs2 := since_append (run (picks.map
      (fun p => Input.write_complete (w.writes.length + p.1) p.2))
        (connctx_activate d true w)) w.trace (es ++ es2) (by rw [hr, ht]; simp)
    refine ⟨by rw [hs, hes], by rw [hw]; simp [hwl], ?_, ?_, fun h => absurd h hN⟩
    · rw [hs2, List.filter_append, hr1]; simpa using hes
    · rw [hs2, List.filter_append, hr2, hea, hn]; simp

/-- C2 on a retry with two differing fields, while the two writes of the first
attempt are still outstanding: the later write completes first and fails, and the
activation follows the second completion. -/
theorem property_sync_countdown_barrier_witness :
    valid_picks (differing_fields sample_syncing.gconf "net"
        (sample_ctx false (some "old") (some "bob"))) sample_picks = true ∧
      ((run [Input.write_complete 3 (some none), Input.write_complete 2 none]
        (connctx_activate 0 true sample_syncing)).since
          sample_syncing.trace.length).filter Event.is_activate = [Event.activate 0] :=
  ⟨by decide,
   (property_sync_countdown_barrier sample_syncing 0 sample_request
      (sample_ctx false (some "old") (some "bob")) sample_picks
      (by decide) (by decide) (by decide)).2.2.2.1⟩

/-- C3 as stated fails: with `ipv4_type` and `ipv4_autodns` unset before the
finalization, they are set to `"AUTO"` and `true` after it. -/
theorem link_up_idle_persists_defaults :
    sample_scheduled.gconf "net" "ipv4_type" = none ∧
      (_link_up_idle 0 sample_scheduled).1.gconf "net" "ipv4_type"
        = some (GConfValue.str "AUTO") ∧
      sample_scheduled.gconf "net" "ipv4_autodns" = none ∧
      (_link_up_idle 0 sample_scheduled).1.gconf "net" "ipv4_autodns"
        = some (GConfValue.bool true) := by
  decide

/-- C3 amended: after `_link_up_idle` the stored `ipv4_type` is the string read at
entry (`"AUTO"` when none was stored) and the stored `ipv4_autodns` is the boolean
read at entry (`true` when none was stored); a key that held a value of its type
before holds the same value after. -/
theorem link_up_idle_restores_hints_read (w : World) (d : Nat) (data : connctx_data)
    (ctx : OfonoConnCtx) (s : OfonoConnCtxSettings)
    (hd : w.data d = some data) (hc : w.ctx data.ctx = some ctx) (hs : ctx.settings = some s) :
    (_link_up_idle d w).1.gconf data.network_id "ipv4_type"
        = some (GConfValue.str
            ((icd_gconf_get_iap_string w.gconf data.network_id "ipv4_type").getD "AUTO")) ∧
      (_link_up_idle d w).1.gconf data.network_id "ipv4_autodns"
        = some (GConfValue.bool
            (ofono_icd_gconf_get_iap_bool w.gconf data.network_id "ipv4_autodns" true)) ∧
      (∀ t, w.gconf data.network_id "ipv4_type" = some (GConfValue.str t) →
        (_link_up_idle d w).1.gconf data.network_id "ipv4_type"
          = w.gconf data.network_id "ipv4_type") ∧
      (∀ b, w.gconf data.network_id "ipv4_autodns" = some (GConfValue.bool b) →
        (_link_up_idle d w).1.gconf data.network_id "ipv4_autodns"
          = w.gconf data.network_id "ipv4_autodns") := by
  obtain ⟨h1, h2⟩ := link_up_idle_hack_locals w.gconf data.network_id s
  rw [link_up_idle_gconf w d data ctx s hd hc hs, h1, h2]
  have e1 : ofono_icd_gconf_set_iap_string
        (ofono_icd_gconf_set_iap_bool (link_up_idle_hack w.gconf data.network_id s).1
          data.network_id "ipv4_autodns"
          (ofono_icd_gconf_get_iap_bool w.gconf data.network_id "ipv4_autodns" true))
        data.network_id "ipv4_type"
        (some ((icd_gconf_get_iap_string w.gconf data.network_id "ipv4_type").getD "AUTO"))
        data.network_id "ipv4_type"
      = some (GConfValue.str
          ((icd_gconf_get_iap_string w.gconf data.network_id "ipv4_type").getD "AUTO")) := by
    simp [ofono_icd_gconf_set_iap_string]
  have e2 : ofono_icd_gconf_set_iap_string
        (ofono_icd_gconf_set_iap_bool (link_up_idle_hack w.gconf data.network_id s).1
          data.network_id "ipv4_autodns"
          (ofono_icd_gconf_get_iap_bool w.gconf data.network_id "ipv4_autodns" true))
        data.network_id "ipv4_type"
        (some ((icd_gconf_get_iap_string w.gconf data.network_id "ipv4_type").getD "AUTO"))
        data.network_id "ipv4_autodns"
      = some (GConfValue.bool
          (ofono_icd_gconf_get_iap_bool w.gconf data.network_id "ipv4_autodns" true)) := by
    simp [ofono_icd_gconf_set_iap_string, ofono_icd_gconf_set_iap_bool]
  refine ⟨e1, e2, ?_, ?_⟩
  · intro t ht
    rw [e1]
    simp [icd_gconf_get_iap_string, ht]
  · intro b hb
    rw [e2]
    simp [ofono_icd_gconf_get_iap_bool, hb]

/-- C3 amended, on the scheduled sample request. -/
theorem link_up_idle_restores_hints_read_witness :
    (_link_up_idle 0 sample_scheduled).1.gconf "net" "ipv4_type"
        = some (GConfValue.str "AUTO") ∧
      (_link_up_idle 0 sample_scheduled).1.gconf "net" "ipv4_autodns"
        = some (GConfValue.bool true) :=
  ⟨(link_up_idle_restores_hints_read sample_scheduled 0 { sample_request with timeout_id := 1 }
      (sample_ctx true (some "internet") none) sample_settings
      (by decide) (by decide) rfl).1,
   (link_up_idle_restores_hints_read sample_scheduled 0 { sample_request with timeout_id := 1 }
      (sample_ctx true (some "internet") none) sample_settings
      (by decide) (by decide) rfl).2.1⟩

/-- C4 fails on the code: active, inactive, active again before the loop runs
leaves two idle sources for the same record, and dispatching both calls
`link_up_cb` with `ICD_NW_SUCCESS_NEXT_LAYER` twice. -/
theorem finalization_runs_twice :
    (run [Input.link_up "GPRS" 0 "net" 7 42, Input.active_changed 0 true,
          Input.active_changed 0 false, Input.active_changed 0 true]
        (sample_world false (some "internet") none)).idles = [(1, 0), (2, 0)] ∧
      (run [Input.link_up "GPRS" 0 "net" 7 42, Input.active_changed 0 true,
            Input.active_changed 0 false, Input.active_changed 0 true,
            Input.idle_dispatch 1, Input.idle_dispatch 2]
          (sample_world false (some "internet") none)).trace.filter Event.is_link_up_success
        = [Event.link_up_cb 7 icd_nw_status.ICD_NW_SUCCESS_NEXT_LAYER none (some "rmnet0") 42,
           Event.link_up_cb 7 icd_nw_status.ICD_NW_SUCCESS_NEXT_LAYER none (some "rmnet0") 42] := by
  decide

/-- C5: in every state and for every input `ofono_link_down` calls `link_down_cb`
exactly once, last, with `ICD_NW_SUCCESS` and the caller's token. -/
theorem link_down_always_reports_success (network_type : String) (network_attrs : Nat)
    (network_id : String) (interface_name : Option String) (link_down_cb token : Nat)
    (w : World) :
    ∃ es, (ofono_link_down network_type network_attrs network_id interface_name
          link_down_cb token w).trace
        = w.trace ++ es ++ [Event.link_down_cb link_down_cb icd_nw_status.ICD_NW_SUCCESS token] ∧
      es.filter Event.is_link_down_cb = [] := by
  unfold ofono_link_down
  cases icd_gconf_get_iap_string w.gconf network_id SIM_IMSI with
  | none => exact ⟨[], by simp [World.emit], rfl⟩
  | some imsi =>
    dsimp only
    cases ofono_modem_find_by_imsi w (some imsi) with
    | none => exact ⟨[], by simp [World.emit], rfl⟩
    | some md =>
      dsimp only
      cases w.modems[md]? with
      | none => exact ⟨[Event.fault], by simp [World.emit, World.crash], rfl⟩
      | some m =>
        dsimp only
        cases ofono_modem_get_context_by_id m
            (icd_gconf_get_iap_string w.gconf network_id "context_id") with
        | none => exact ⟨[], by simp [World.emit], rfl⟩
        | some c =>
          obtain ⟨es, h1, h2⟩ := hash_table_remove_trace md c w
          have hf : es.filter Event.is_link_down_cb = [] := by
            rw [List.filter_eq_nil_iff]
            intro e he
            rcases h2 e he with h | ⟨d, h⟩ <;> simp [h, Event.is_link_down_cb]
          dsimp only
          cases (g_hash_table_remove md c w).ctx c with
          | none =>
            exact ⟨es ++ [Event.fault], by simp [World.emit, World.crash, h1],
              by simp [List.filter_append, hf, Event.is_link_down_cb]⟩
          | some ctx =>
            by_cases ha : ctx.active
            · exact ⟨es ++ [Event.deactivate c],
                by simp [World.emit, ha, ofono_connctx_deactivate, h1],
                by simp [List.filter_append, hf, Event.is_link_down_cb]⟩
            · exact ⟨es, by simp [World.emit, ha, h1], hf⟩

/-- C6: for a connected request registered under its context, the active-state
handler on an inactive context reports `ICD_NW_ERROR`, `"network_error"` and the
request's type, attributes and id to the close notifier once, then tears the
request down and removes it from the map, requesting no activation and no write;
on an active context it changes nothing. -/
theorem active_changed_when_connected (w : World) (c d : Nat) (data : connctx_data)
    (ctx : OfonoConnCtx) (m : modem_data)
    (hc : w.ctx c = some ctx) (hd : w.data d = some data) (hconn : data.connected = true)
    (hm : w.modems[data.md]? = some m) (hreg : m.ctxhd.lookup c = some d) :
    (ctx.active = false →
      (_ctx_active_changed_cb c d w).trace
          = w.trace ++ [Event.close_fn icd_nw_status.ICD_NW_ERROR "network_error"
              data.network_type data.network_attrs data.network_id, Event.destroyed d] ∧
        (_ctx_active_changed_cb c d w).modems
          = w.modems.set data.md { m with ctxhd := m.ctxhd.filter (fun e => e.1 ≠ c) } ∧
        (m.ctxhd.filter (fun e => e.1 ≠ c)).lookup c = none ∧
        (_ctx_active_changed_cb c d w).data d = none ∧
        (_ctx_active_changed_cb c d w).writes = w.writes) ∧
      (ctx.active = true → _ctx_active_changed_cb c d w = w) := by
  have hlt : d < w.datas.length := heap_get_some_lt _ _ _ hd
  constructor
  · intro ha
    unfold _ctx_active_changed_cb
    simp only [hc, hd, hconn, ha]
    obtain ⟨h1, h2, h3, h4, -⟩ := hash_table_remove_registered data.md c d
      (w.emit (Event.close_fn icd_nw_status.ICD_NW_ERROR "network_error"
        data.network_type data.network_attrs data.network_id)) m data hm hreg hd
    simp only [not_true_eq_false, if_false, Bool.false_eq_true, not_false_eq_true, if_true]
    refine ⟨?_, h2, lookup_filter_ne c m.ctxhd, ?_, h4⟩
    · rw [h1]; simp [World.emit]
    · rw [World.data, h3]
      exact heap_get_set_self _ _ _ hlt
  · intro ha
    unfold _ctx_active_changed_cb
    simp [hc, hd, hconn, ha]

/-- C6 on the sample request once its context has dropped. -/
theorem active_changed_when_connected_witness :
    (_ctx_active_changed_cb 0 0 sample_dropped).trace
        = sample_dropped.trace ++ [Event.close_fn icd_nw_status.ICD_NW_ERROR "network_error"
            "GPRS" 0 "net", Event.destroyed 0] ∧
      (_ctx_active_changed_cb 0 0 sample_dropped).data 0 = none ∧
      (_ctx_active_changed_cb 0 0 sample_dropped).writes = sample_dropped.writes :=
  ⟨((active_changed_when_connected sample_dropped 0 0 { sample_request with connected := true }
      (sample_ctx false (some "internet") none) { sample_modem with ctxhd := [(0, 0)] }
      (by decide) (by decide) rfl (by decide) (by decide)).1 rfl).1,
   ((active_changed_when_connected sample_dropped 0 0 { sample_request with connected := true }
      (sample_ctx false (some "internet") none) { sample_modem with ctxhd := [(0, 0)] }
      (by decide) (by decide) rfl (by decide) (by decide)).1 rfl).2.2.2⟩

/-- C7: when the context of a connected request is destroyed,
`_connctx_weak_notify` calls the close notifier once with `ICD_NW_ERROR`,
`"network_error"` and the request's type, attributes and id, and only then is the
request removed from the map and freed. -/
theorem weak_notify_when_connected (w : World) (c d : Nat) (data : connctx_data)
    (m : modem_data)
    (hd : w.data d = some data) (hconn : data.connected = true)
    (hm : w.modems[data.md]? = some m) (hreg : m.ctxhd.lookup c = some d) :
    (_connctx_weak_notify d c w).trace
        = w.trace ++ [Event.close_fn icd_nw_status.ICD_NW_ERROR "network_error"
            data.network_type data.network_attrs data.network_id, Event.destroyed d] ∧
      (_connctx_weak_notify d c w).modems
        = w.modems.set data.md { m with ctxhd := m.ctxhd.filter (fun e => e.1 ≠ c) } ∧
      (m.ctxhd.filter (fun e => e.1 ≠ c)).lookup c = none ∧
      (_connctx_weak_notify d c w).data d = none := by
  have hlt : d < w.datas.length := heap_get_some_lt _ _ _ hd
  unfold _connctx_weak_notify
  simp only [hd, hconn, if_true]
  obtain ⟨h1, h2, h3, -⟩ := hash_table_remove_registered data.md c d
    (w.emit (Event.close_fn icd_nw_status.ICD_NW_ERROR "network_error"
      data.network_type data.network_attrs data.network_id)) m data hm hreg hd
  refine ⟨?_, h2, lookup_filter_ne c m.ctxhd, ?_⟩
  · rw [h1]; simp [World.emit]
  · rw [World.data, h3]
    exact heap_get_set_self _ _ _ hlt

/-- C7 on the connected sample request. -/
theorem weak_notify_when_connected_witness :
    (_connctx_weak_notify 0 0 sample_connected).trace
        = sample_connected.trace ++ [Event.close_fn icd_nw_status.ICD_NW_ERROR "network_error"
            "GPRS" 0 "net", Event.destroyed 0] ∧
      (_connctx_weak_notify 0 0 sample_connected).data 0 = none :=
  ⟨(weak_notify_when_connected sample_connected 0 0 { sample_request with connected := true }
      { sample_modem with ctxhd := [(0, 0)] } (by decide) rfl (by decide) (by decide)).1,
   (weak_notify_when_connected sample_connected 0 0 { sample_request with connected := true }
      { sample_modem with ctxhd := [(0, 0)] } (by decide) rfl (by decide) (by decide)).2.2.2⟩

/-- C8: a record whose `connected` is true keeps it true for as long as it exists,
whatever is delivered; only an idle dispatch (`_link_up_idle`) changes the flag of
an existing record; and a record that appears in a delivery appears with
`connected = false`. -/
theorem connected_is_monotone (w : World) (d : Nat) (r : connctx_data)
    (hr : w.data d = some r) :
    (∀ (inputs : List Input) (r' : connctx_data),
        r.connected = true → (run inputs w).data d = some r' → r'.connected = true) ∧
      (∀ (i : Input) (r' : connctx_data), (∀ tag, i ≠ Input.idle_dispatch tag) →
        (step i w).data d = some r' → r'.connected = r.connected) ∧
      (∀ (i : Input) (d' : Nat) (r' : connctx_data),
        w.data d' = none → (step i w).data d' = some r' → r'.connected = false) := by
  have hlt : d < w.datas.length := heap_get_some_lt _ _ _ hr
  refine ⟨fun inputs r' hc h' => ?_, fun i r' hi h' => ?_, fun i d' r' hn h' => ?_⟩
  · obtain ⟨r0, h0, himp⟩ := ((run_evolves inputs w).2 d r' h').1 hlt
    rw [World.data] at hr
    rw [hr] at h0
    cases h0
    exact himp hc
  · obtain ⟨r0, h0, heq⟩ := ((step_evolves_eq i w hi).2 d r' h').1 hlt
    rw [World.data] at hr
    rw [hr] at h0
    cases h0
    exact heq.symm
  · by_cases hi : ∀ tag, i ≠ Input.idle_dispatch tag
    · have hev := (step_evolves_eq i w hi).2 d' r' h'
      by_cases hd : d' < w.datas.length
      · obtain ⟨r0, h0, -⟩ := hev.1 hd
        rw [World.data] at hn
        rw [hn] at h0
        cases h0
      · exact (hev.2 (by omega)).symm
    · simp only [not_forall, not_not] at hi
      obtain ⟨tag, rfl⟩ := hi
      have hev := (step_evolves (Input.idle_dispatch tag) w).2 d' r' h'
      have hlt' := heap_get_some_lt _ _ _ h'
      rw [idle_dispatch_length] at hlt'
      obtain ⟨r0, h0, -⟩ := hev.1 hlt'
      rw [World.data] at hn
      rw [hn] at h0
      cases h0

/-- C8 on the connected sample request. -/
theorem connected_is_monotone_witness :
    sample_connected.data 0 = some { sample_request with connected := true } ∧
      ∀ (inputs : List Input) (r' : connctx_data),
        (run inputs sample_connected).data 0 = some r' → r'.connected = true :=
  ⟨by decide, fun inputs r' h =>
    (connected_is_monotone sample_connected 0 { sample_request with connected := true }
      (by decide)).1 inputs r' rfl h⟩

/-- C9: each of link-down, the connected-and-inactive branch of the active-state
handler and the destruction notification leaves the map without an entry for the
context, and removing that key once more changes nothing at all: the map, every
record and the trace stay as they are, so the teardown routine does not run again. -/
theorem teardown_is_idempotent (w : World) (md c : Nat) (m : modem_data)
    (hm : w.modems[md]? = some m) :
    g_hash_table_remove md c (g_hash_table_remove md c w) = g_hash_table_remove md c w ∧
      (∀ (network_type : String) (network_attrs : Nat) (network_id : String)
          (interface_name : Option String) (cb token : Nat) (imsi : String),
        icd_gconf_get_iap_string w.gconf network_id SIM_IMSI = some imsi →
        ofono_modem_find_by_imsi w (some imsi) = some md →
        ofono_modem_get_context_by_id m
          (icd_gconf_get_iap_string w.gconf network_id "context_id") = some c →
        (∃ m', (ofono_link_down network_type network_attrs network_id interface_name
            cb token w).modems[md]? = some m' ∧ m'.ctxhd.lookup c = none) ∧
        g_hash_table_remove md c
            (ofono_link_down network_type network_attrs network_id interface_name cb token w)
          = ofono_link_down network_type network_attrs network_id interface_name cb token w) ∧
      (∀ (d : Nat) (data : connctx_data) (ctx : OfonoConnCtx),
        w.data d = some data → data.md = md → data.connected = true →
        w.ctx c = some ctx → ctx.active = false →
        (∃ m', (_ctx_active_changed_cb c d w).modems[md]? = some m' ∧
          m'.ctxhd.lookup c = none) ∧
        g_hash_table_remove md c (_ctx_active_changed_cb c d w)
          = _ctx_active_changed_cb c d w) ∧
      (∀ (d : Nat) (data : connctx_data),
        w.data d = some data → data.md = md →
        (∃ m', (_connctx_weak_notify d c w).modems[md]? = some m' ∧
          m'.ctxhd.lookup c = none) ∧
        g_hash_table_remove md c (_connctx_weak_notify d c w) = _connctx_weak_notify d c w) := by
  refine ⟨?_, ?_, ?_, ?_⟩
  · obtain ⟨m', h1, h2⟩ := hash_table_remove_clears md c w m hm
    exact hash_table_remove_absent md c _ m' h1 h2
  · intro ty attrs id ifname cb token imsi hi hf hx
    obtain ⟨m', h1, h2⟩ := hash_table_remove_clears md c w m hm
    unfold ofono_link_down
    simp only [hi, hf, hm, hx]
    cases (g_hash_table_remove md c w).ctx c with
    | none => exact ⟨⟨m', h1, h2⟩, hash_table_remove_absent md c _ m' h1 h2⟩
    | some ctx =>
      dsimp only
      split
      · exact ⟨⟨m', h1, h2⟩, hash_table_remove_absent md c _ m' h1 h2⟩
      · exact ⟨⟨m', h1, h2⟩, hash_table_remove_absent md c _ m' h1 h2⟩
  · intro d data ctx hd hmd hconn hc ha
    obtain ⟨m', h1, h2⟩ := hash_table_remove_clears md c
      (w.emit (Event.close_fn icd_nw_status.ICD_NW_ERROR "network_error"
        data.network_type data.network_attrs data.network_id)) m hm
    unfold _ctx_active_changed_cb
    simp only [hc, hd, hconn, ha, hmd, not_true_eq_false, if_false, Bool.false_eq_true,
      not_false_eq_true, if_true]
    exact ⟨⟨m', h1, h2⟩, hash_table_remove_absent md c _ m' h1 h2⟩
  · intro d data hd hmd
    unfold _connctx_weak_notify
    simp only [hd, hmd]
    split
    · obtain ⟨m', h1, h2⟩ := hash_table_remove_clears md c
        (w.emit (Event.close_fn icd_nw_status.ICD_NW_ERROR "network_error"
          data.network_type data.network_attrs data.network_id)) m hm
      exact ⟨⟨m', h1, h2⟩, hash_table_remove_absent md c _ m' h1 h2⟩
    · obtain ⟨m', h1, h2⟩ := hash_table_remove_clears md c w m hm
      exact ⟨⟨m', h1, h2⟩, hash_table_remove_absent md c _ m' h1 h2⟩

/-- C9 for link-down on the connected sample request. -/
theorem teardown_is_idempotent_witness :
    sample_connected.modems[0]? = some { sample_modem with ctxhd := [(0, 0)] } ∧
      g_hash_table_remove 0 0 (ofono_link_down "GPRS" 0 "net" (some "rmnet0") 9 43 sample_connected)
        = ofono_link_down "GPRS" 0 "net" (some "rmnet0") 9 43 sample_connected :=
  ⟨by decide,
   ((teardown_is_idempotent sample_connected 0 0 { sample_modem with ctxhd := [(0, 0)] }
      (by decide)).2.1 "GPRS" 0 "net" (some "rmnet0") 9 43 "001"
      (by decide) (by decide) (by decide)).2⟩

/-- C10 as stated fails: link-up on an active context whose APN differs requests
deactivation and issues no write, and without a transition to inactive the
completion, the activation and the finalization never happen. -/
theorem link_up_on_active_context_writes_nothing :
    (ofono_link_up "GPRS" 0 "net" 7 42 (sample_world true (some "old") none)).trace
        = [Event.deactivate 0] ∧
      (ofono_link_up "GPRS" 0 "net" 7 42 (sample_world true (some "old") none)).writes = [] ∧
      (run [Input.link_up "GPRS" 0 "net" 7 42, Input.write_complete 0 none,
            Input.active_changed 0 true, Input.idle_dispatch 1]
        (sample_world true (some "old") none)).trace = [Event.deactivate 0] := by
  decide

/-- C10 amended: on a world with nothing in flight, link-up on an active context
whose APN differs requests deactivation; once the context turns inactive exactly
one write, of `AccessPointName`, is issued; its completion requests activation;
the turn to active schedules the finalization, and its dispatch calls
`link_up_cb` with `ICD_NW_SUCCESS_NEXT_LAYER` and the context's interface name. -/
theorem link_up_on_active_context_scenario (network_type : String) (network_attrs : Nat)
    (network_id : String) (cb token : Nat) (w : World) (imsi cid : String) (md c : Nat)
    (m : modem_data) (ctx : OfonoConnCtx) (s : OfonoConnCtxSettings)
    (error : Option (Option String))
    (hi : icd_gconf_get_iap_string w.gconf network_id SIM_IMSI = some imsi)
    (hf : ofono_modem_find_by_imsi w (some imsi) = some md)
    (hm : w.modems[md]? = some m)
    (hcid : icd_gconf_get_iap_string w.gconf network_id "context_id" = some cid)
    (hne : cid ≠ "")
    (hx : ofono_modem_get_context_by_id m (some cid) = some c)
    (hc : w.ctx c = some ctx)
    (hoom : w.oom = false)
    (hreg : m.ctxhd.lookup c = none)
    (hh : w.handlers = []) (hw : w.writes = []) (hid : w.idles = [])
    (hact : ctx.active = true) (hs : ctx.settings = some s)
    (hapn : ctx.apn ≠ icd_gconf_get_iap_string w.gconf network_id "gprs_accesspointname")
    (huser : ctx.username = icd_gconf_get_iap_string w.gconf network_id "gprs_username")
    (hpass : ctx.password = icd_gconf_get_iap_string w.gconf network_id "gprs_password") :
    (run [Input.link_up network_type network_attrs network_id cb token] w).trace
        = w.trace ++ [Event.deactivate c] ∧
      (run [Input.link_up network_type network_attrs network_id cb token,
            Input.active_changed c false] w).trace
        = w.trace ++ [Event.deactivate c,
            Event.set_string_full c "AccessPointName"
              (icd_gconf_get_iap_string w.gconf network_id "gprs_accesspointname")
              w.lists.length] ∧
      (run [Input.link_up network_type network_attrs network_id cb token,
            Input.active_changed c false, Input.write_complete 0 error] w).trace
        = w.trace ++ [Event.deactivate c,
            Event.set_string_full c "AccessPointName"
              (icd_gconf_get_iap_string w.gconf network_id "gprs_accesspointname")
              w.lists.length,
            Event.property_log "AccessPointName"
              (error.map (fun message => message.getD "Unknown error")),
            Event.activate c] ∧
      (run [Input.link_up network_type network_attrs network_id cb token,
            Input.active_changed c false, Input.write_complete 0 error,
            Input.active_changed c true] w).idles = [(w.next_source + 1, w.datas.length)] ∧
      (run [Input.link_up network_type network_attrs network_id cb token,
            Input.active_changed c false, Input.write_complete 0 error,
            Input.active_changed c true, Input.idle_dispatch (w.next_source + 1)] w).trace
        = w.trace ++ [Event.deactivate c,
            Event.set_string_full c "AccessPointName"
              (icd_gconf_get_iap_string w.gconf network_id "gprs_accesspointname")
              w.lists.length,
            Event.property_log "AccessPointName"
              (error.map (fun message => message.getD "Unknown error")),
            Event.activate c,
            Event.link_up_cb cb icd_nw_status.ICD_NW_SUCCESS_NEXT_LAYER none s.ifname token] := by
  have hclt : c < w.ctxs.length := heap_get_some_lt _ _ _ hc
  have h1 := link_up_resolved_world network_type network_attrs network_id cb token w imsi cid
    md c m ctx hi hf hm hcid hne hx hc hoom hreg
  rw [World.ctx] at hc
  cases error <;>
  simp [run, step, h1, hc, hact, hs, hh, hw, hid, heap_get_set_self, hclt,
    _ctx_active_changed_cb, World.ctx, World.data, dispatch_active_changed,
    heap_get_append_length_some, connctx_activate, sync_property, g_strcmp0_eq_zero, hapn, huser,
    hpass, World.list, set_append_length, ofono_connctx_set_string_full,
    ofono_connctx_deactivate, ofono_connctx_activate, World.emit,
    ofono_connctx_set_string_complete, g_idle_add, _link_up_idle, g_source_remove,
    World.set_iap_bool, World.set_iap_string]

/-- C10 amended, on the sample world. -/
theorem link_up_on_active_context_scenario_witness :
    (run [Input.link_up "GPRS" 0 "net" 7 42, Input.active_changed 0 false,
          Input.write_complete 0 none, Input.active_changed 0 true, Input.idle_dispatch 1]
        (sample_world true (some "old") none)).trace
      = [Event.deactivate 0,
         Event.set_string_full 0 "AccessPointName" (some "internet") 0,
         Event.property_log "AccessPointName" none,
         Event.activate 0,
         Event.link_up_cb 7 icd_nw_status.ICD_NW_SUCCESS_NEXT_LAYER none (some "rmnet0") 42] :=
  (link_up_on_active_context_scenario "GPRS" 0 "net" 7 42 (sample_world true (some "old") none)
    "001" "/ctx1" 0 0 sample_modem (sample_ctx true (some "old") none) sample_settings none
    (by decide) (by decide) (by decide) (by decide) (by decide) (by decide) (by decide) rfl
    (by decide) rfl rfl rfl rfl rfl (by decide) (by decide) (by decide)).2.2.2.2

/-! ## Further lemmas -/

/-- `_link_up_idle` is its second half run on the world it has built when it calls
`link_up_cb`. -/
theorem link_up_idle_split (w : World) (d : Nat) (data : connctx_data) (ctx : OfonoConnCtx)
    (s : OfonoConnCtxSettings)
    (hd : w.data d = some data) (hc : w.ctx data.ctx = some ctx) (hs : ctx.settings = some s) :
    (_link_up_idle d w).1 =
      link_up_idle_finish d data s
        ((icd_gconf_get_iap_string w.gconf data.network_id "ipv4_type").getD "AUTO")
        (ofono_icd_gconf_get_iap_bool w.gconf data.network_id "ipv4_autodns" true)
        (world_at_link_up_cb d data s w) := by
  obtain ⟨h1, h2⟩ := link_up_idle_hack_locals w.gconf data.network_id s
  unfold _link_up_idle
  simp only [hd, hc, hs]
  rw [← h1, ← h2]
  rfl

/-- The restores of `_link_up_idle` touch only `ipv4_type` and `ipv4_autodns`. -/
theorem link_up_idle_gconf_other (w : World) (d : Nat) (data : connctx_data)
    (ctx : OfonoConnCtx) (s : OfonoConnCtxSettings)
    (hd : w.data d = some data) (hc : w.ctx data.ctx = some ctx) (hs : ctx.settings = some s)
    (k : String) (h1 : k ≠ "ipv4_type") (h2 : k ≠ "ipv4_autodns") :
    (_link_up_idle d w).1.gconf data.network_id k
      = (link_up_idle_hack w.gconf data.network_id s).1 data.network_id k := by
  rw [link_up_idle_gconf w d data ctx s hd hc hs]
  simp [ofono_icd_gconf_set_iap_string, ofono_icd_gconf_set_iap_bool, h1, h2]

/-- The address rewrite of the first half of `_link_up_idle`. -/
theorem link_up_idle_hack_ip (g : GConf) (net_id : String) (s : OfonoConnCtxSettings) :
    (((icd_gconf_get_iap_string g net_id "ipv4_type").getD "AUTO" = "AUTO" ∧
        s.method ≠ ofono_connctx_method.OFONO_CONNCTX_METHOD_DHCP) →
      icd_gconf_get_iap_string (link_up_idle_hack g net_id s).1 net_id "ipv4_address"
          = s.address ∧
        icd_gconf_get_iap_string (link_up_idle_hack g net_id s).1 net_id "ipv4_gateway"
          = s.gateway ∧
        icd_gconf_get_iap_string (link_up_idle_hack g net_id s).1 net_id "ipv4_netmask"
          = s.netmask ∧
        icd_gconf_get_iap_string (link_up_idle_hack g net_id s).1 net_id "ipv4_type"
          = some "STATIC") ∧
    (¬ ((icd_gconf_get_iap_string g net_id "ipv4_type").getD "AUTO" = "AUTO" ∧
        s.method ≠ ofono_connctx_method.OFONO_CONNCTX_METHOD_DHCP) →
      (link_up_idle_hack g net_id s).1 net_id "ipv4_address" = g net_id "ipv4_address" ∧
        (link_up_idle_hack g net_id s).1 net_id "ipv4_gateway" = g net_id "ipv4_gateway" ∧
        (link_up_idle_hack g net_id s).1 net_id "ipv4_netmask" = g net_id "ipv4_netmask") := by
  unfold link_up_idle_hack
  constructor
  · rintro ⟨ht, hm⟩
    cases h0 : icd_gconf_get_iap_string g net_id "ipv4_type" with
    | none =>
      cases ofono_icd_gconf_get_iap_bool g net_id "ipv4_autodns" true <;>
        rcases s.dns with _ | ⟨a, _ | ⟨b, r⟩⟩ <;>
        cases ha : s.address <;> cases hg : s.gateway <;> cases hn : s.netmask <;>
        simp [strcmp_eq_zero, hm, icd_gconf_get_iap_string, ofono_icd_gconf_set_iap_string,
          ofono_icd_gconf_set_iap_bool]
    | some t =>
      rw [h0] at ht
      simp only [Option.getD_some] at ht
      subst ht
      cases ofono_icd_gconf_get_iap_bool g net_id "ipv4_autodns" true <;>
        rcases s.dns with _ | ⟨a, _ | ⟨b, r⟩⟩ <;>
        cases ha : s.address <;> cases hg : s.gateway <;> cases hn : s.netmask <;>
        simp [strcmp_eq_zero, hm, icd_gconf_get_iap_string, ofono_icd_gconf_set_iap_string,
          ofono_icd_gconf_set_iap_bool]
  · intro hnot
    cases h0 : icd_gconf_get_iap_string g net_id "ipv4_type" with
    | none =>
      rw [h0] at hnot
      simp only [Option.getD_none, true_and, not_not] at hnot
      cases ofono_icd_gconf_get_iap_bool g net_id "ipv4_autodns" true <;>
        rcases s.dns with _ | ⟨a, _ | ⟨b, r⟩⟩ <;>
        simp [strcmp_eq_zero, hnot, ofono_icd_gconf_set_iap_string,
          ofono_icd_gconf_set_iap_bool]
    | some t =>
      rw [h0] at hnot
      simp only [Option.getD_some] at hnot
      by_cases ht : t = "AUTO"
      · have hm : s.method = ofono_connctx_method.OFONO_CONNCTX_METHOD_DHCP := by
          by_contra hm
          exact hnot ⟨ht, hm⟩
        cases ofono_icd_gconf_get_iap_bool g net_id "ipv4_autodns" true <;>
          rcases s.dns with _ | ⟨a, _ | ⟨b, r⟩⟩ <;>
          simp [strcmp_eq_zero, ht, hm, ofono_icd_gconf_set_iap_string,
            ofono_icd_gconf_set_iap_bool]
      · cases ofono_icd_gconf_get_iap_bool g net_id "ipv4_autodns" true <;>
          rcases s.dns with _ | ⟨a, _ | ⟨b, r⟩⟩ <;>
          simp [strcmp_eq_zero, ht, ofono_icd_gconf_set_iap_string,
            ofono_icd_gconf_set_iap_bool]

/-- The DNS rewrite of the first half of `_link_up_idle`. -/
theorem link_up_idle_hack_dns (g : GConf) (net_id : String) (s : OfonoConnCtxSettings) :
    (ofono_icd_gconf_get_iap_bool g net_id "ipv4_autodns" true = true →
      (∀ a b rest, s.dns = a :: b :: rest →
        (link_up_idle_hack g net_id s).1 net_id "ipv4_dns1" = some (GConfValue.str a) ∧
        (link_up_idle_hack g net_id s).1 net_id "ipv4_dns2" = some (GConfValue.str b)) ∧
      (∀ a, s.dns = [a] →
        (link_up_idle_hack g net_id s).1 net_id "ipv4_dns1" = some (GConfValue.str a) ∧
        (link_up_idle_hack g net_id s).1 net_id "ipv4_dns2" = none) ∧
      (s.dns = [] →
        (link_up_idle_hack g net_id s).1 net_id "ipv4_dns1" = none ∧
        (link_up_idle_hack g net_id s).1 net_id "ipv4_dns2" = none)) ∧
    (ofono_icd_gconf_get_iap_bool g net_id "ipv4_autodns" true = false →
      (link_up_idle_hack g net_id s).1 net_id "ipv4_dns1" = g net_id "ipv4_dns1" ∧
      (link_up_idle_hack g net_id s).1 net_id "ipv4_dns2" = g net_id "ipv4_dns2") := by
  unfold link_up_idle_hack
  constructor
  · intro hb
    refine ⟨?_, ?_, ?_⟩
    · intro a b rest hdns
      simp [hb, hdns, ofono_icd_gconf_set_iap_string, ofono_icd_gconf_set_iap_bool]
    · intro a hdns
      simp [hb, hdns, ofono_icd_gconf_set_iap_string, ofono_icd_gconf_set_iap_bool]
    · intro hdns
      simp [hb, hdns, ofono_icd_gconf_set_iap_string, ofono_icd_gconf_set_iap_bool]
  · intro hb
    cases h0 : icd_gconf_get_iap_string g net_id "ipv4_type" <;>
      by_cases ht : strcmp ((icd_gconf_get_iap_string g net_id "ipv4_type").getD "AUTO") "AUTO"
        = 0 <;>
      by_cases hm : s.method = ofono_connctx_method.OFONO_CONNCTX_METHOD_DHCP <;>
      simp [h0] at ht <;>
      simp [hb, h0, ht, hm, ofono_icd_gconf_set_iap_string, ofono_icd_gconf_set_iap_bool]

/-- The teardown routine touches no context, write, pending list, store entry or other
record. -/
theorem handler_data_destroy_frame (d0 : Nat) (w : World) :
    (ofono_connctx_handler_data_destroy d0 w).ctxs = w.ctxs ∧
      (ofono_connctx_handler_data_destroy d0 w).writes = w.writes ∧
      (ofono_connctx_handler_data_destroy d0 w).lists = w.lists ∧
      (ofono_connctx_handler_data_destroy d0 w).gconf = w.gconf ∧
      ∀ d, d ≠ d0 → (ofono_connctx_handler_data_destroy d0 w).data d = w.data d := by
  unfold ofono_connctx_handler_data_destroy
  cases w.data d0 with
  | none => exact ⟨rfl, rfl, rfl, rfl, fun _ _ => rfl⟩
  | some data =>
    by_cases h : data.timeout_id = 0
    · simp only [h, ne_eq, not_true_eq_false, if_false, World.emit, g_object_weak_unref,
        ofono_connctx_remove_handler, World.data]
      exact ⟨trivial, trivial, trivial, trivial,
        fun d hne => heap_get_set_ne _ _ _ _ (Ne.symm hne)⟩
    · simp only [h, ne_eq, not_false_eq_true, if_true, World.emit, g_object_weak_unref,
        ofono_connctx_remove_handler, g_source_remove, World.data]
      exact ⟨trivial, trivial, trivial, trivial,
        fun d hne => heap_get_set_ne _ _ _ _ (Ne.symm hne)⟩

/-- Map insertion records only teardown events and leaves the contexts, the writes, the
pending lists, the store and the inserted record alone. -/
theorem hash_table_insert_frame (md c d : Nat) (w : World) (m : modem_data)
    (hm : w.modems[md]? = some m) (hold : ∀ d0, m.ctxhd.lookup c = some d0 → d0 ≠ d) :
    ∃ es, (g_hash_table_insert md c d w).trace = w.trace ++ es ∧
      (∀ e ∈ es, e = Event.fault ∨ ∃ d0, e = Event.destroyed d0) ∧
      (g_hash_table_insert md c d w).ctxs = w.ctxs ∧
      (g_hash_table_insert md c d w).writes = w.writes ∧
      (g_hash_table_insert md c d w).lists = w.lists ∧
      (g_hash_table_insert md c d w).gconf = w.gconf ∧
      (g_hash_table_insert md c d w).data d = w.data d := by
  unfold g_hash_table_insert
  simp only [hm]
  cases hl : m.ctxhd.lookup c with
  | none => exact ⟨[], by simp, by simp, rfl, rfl, rfl, rfl, rfl⟩
  | some d0 =>
    dsimp only
    obtain ⟨h1, h2, h3, h4, h5⟩ := handler_data_destroy_frame d0
      { w with
        modems := w.modems.set md
          { m with ctxhd := (c, d) :: m.ctxhd.filter (fun e => e.1 ≠ c) } }
    rcases handler_data_destroy_trace d0
      { w with
        modems := w.modems.set md
          { m with ctxhd := (c, d) :: m.ctxhd.filter (fun e => e.1 ≠ c) } } with ht | ht
    · exact ⟨[Event.fault], ht, by simp, h1, h2, h3, h4, h5 d (Ne.symm (hold d0 hl))⟩
    · exact ⟨[Event.destroyed d0], ht, by simp, h1, h2, h3, h4, h5 d (Ne.symm (hold d0 hl))⟩

/-- Map removal touches no context. -/
theorem hash_table_remove_ctxs (md c : Nat) (w : World) :
    (g_hash_table_remove md c w).ctxs = w.ctxs := by
  unfold g_hash_table_remove
  cases w.modems[md]? with
  | none => rfl
  | some m =>
    dsimp only
    cases m.ctxhd.lookup c with
    | none => rfl
    | some d0 =>
      exact (handler_data_destroy_frame d0
        { w with
          modems := w.modems.set md
            { m with ctxhd := m.ctxhd.filter (fun e => e.1 ≠ c) } }).1

/-- The events of the property-sync pipeline: one write per differing field, the
activation when there is none, and neither a deactivation nor a report to a callback
or the close notifier. -/
theorem connctx_activate_events (w : World) (d : Nat) (data : connctx_data) (ctx : OfonoConnCtx)
    (hd : w.data d = some data) (hc : w.ctx data.ctx = some ctx) :
    ∃ es, (connctx_activate d true w).trace = w.trace ++ es ∧
      (es.filter Event.is_set_string).length = differing_fields w.gconf data.network_id ctx ∧
      es.filter Event.is_deactivate = [] ∧
      es.filter Event.is_link_up_cb = [] ∧
      es.filter Event.is_close_fn = [] ∧
      (differing_fields w.gconf data.network_id ctx = 0 → es = [Event.activate data.ctx]) ∧
      (differing_fields w.gconf data.network_id ctx ≠ 0 → es.filter Event.is_activate = []) ∧
      (connctx_activate d true w).modems = w.modems ∧
      (connctx_activate d true w).gconf = w.gconf ∧
      (connctx_activate d true w).idles = w.idles ∧
      (connctx_activate d true w).handlers = w.handlers := by
  unfold connctx_activate differing_fields
  simp only [hd, hc, if_true]
  by_cases h1 : ctx.apn
      = icd_gconf_get_iap_string w.gconf data.network_id "gprs_accesspointname" <;>
  by_cases h2 : ctx.username
      = icd_gconf_get_iap_string w.gconf data.network_id "gprs_username" <;>
  by_cases h3 : ctx.password
      = icd_gconf_get_iap_string w.gconf data.network_id "gprs_password" <;>
  simp [sync_property, g_strcmp0_eq_zero, h1, h2, h3, World.list, heap_get_append_length,
    set_append_length, ofono_connctx_set_string_full, ofono_connctx_activate, World.emit,
    List.filter, Event.is_set_string, Event.is_activate, Event.is_deactivate,
    Event.is_link_up_cb, Event.is_close_fn]

/-- The deactivation branch of the activation driver. -/
theorem connctx_activate_false (d : Nat) (w : World) (data : connctx_data)
    (hd : w.data d = some data) :
    connctx_activate d false w = ofono_connctx_deactivate data.ctx w := by
  unfold connctx_activate
  simp [hd]

/-- The scan finds nothing exactly when no modem has a valid, present SIM of that IMSI. -/
theorem find_by_imsi_from_none (imsi : Option String) (l : List modem_data) (i : Nat) :
    find_by_imsi_from imsi l i = none ↔
      ∀ m ∈ l, ¬ (m.sim.valid = true ∧ m.sim.present = true ∧ m.sim.imsi = imsi) := by
  induction l generalizing i with
  | nil => simp [find_by_imsi_from]
  | cons x rest ih =>
    unfold find_by_imsi_from
    by_cases hx : x.sim.valid = true ∧ x.sim.present = true ∧ x.sim.imsi = imsi
    · have hcond : (x.sim.valid && x.sim.present && (g_strcmp0 x.sim.imsi imsi == 0)) = true := by
        simp [hx.1, hx.2.1, (g_strcmp0_eq_zero _ _).mpr hx.2.2]
      simp only [hcond, if_true]
      constructor
      · intro h; cases h
      · intro h; exact absurd hx (h x (List.mem_cons_self _ _))
    · have hcond : ¬ ((x.sim.valid && x.sim.present && (g_strcmp0 x.sim.imsi imsi == 0)) = true) := by
        intro h
        simp only [Bool.and_eq_true, beq_iff_eq] at h
        exact hx ⟨h.1.1, h.1.2, (g_strcmp0_eq_zero _ _).mp h.2⟩
      simp only [hcond, if_false, Bool.false_eq_true]
      rw [ih]
      constructor
      · intro h m hmem
        rcases List.mem_cons.mp hmem with rfl | h2
        · exact hx
        · exact h m h2
      · intro h m hmem
        exact h m (List.mem_cons_of_mem _ hmem)

/-! ## Further claims -/

/-- C11: when the SIM identity, the modem and a non-empty `context_id` resolve but
the modem has no context for that id, `ofono_link_up` clears the stored
`context_id` of the network id, leaves every other entry, and then reports the
error; when there is no SIM identity, no modem, or no or an empty `context_id`,
the store is unchanged. -/
theorem link_up_clears_stale_context_id
    (network_type : String) (network_attrs : Nat) (network_id : String)
    (link_up_cb token : Nat) (w : World) :
    (∀ (imsi context_id : String) (md : Nat) (m : modem_data),
        icd_gconf_get_iap_string w.gconf network_id SIM_IMSI = some imsi →
        ofono_modem_find_by_imsi w (some imsi) = some md →
        w.modems[md]? = some m →
        icd_gconf_get_iap_string w.gconf network_id "context_id" = some context_id →
        context_id ≠ "" →
        ofono_modem_get_context_by_id m (some context_id) = none →
        ofono_link_up network_type network_attrs network_id link_up_cb token w
            = (w.set_iap_string network_id "context_id" none).emit
                (Event.link_up_cb link_up_cb icd_nw_status.ICD_NW_ERROR
                  (some "no_network") none token) ∧
          (ofono_link_up network_type network_attrs network_id link_up_cb token w).gconf
              network_id "context_id" = none ∧
          ∀ (i k : String), ¬ (i = network_id ∧ k = "context_id") →
            (ofono_link_up network_type network_attrs network_id link_up_cb token w).gconf i k
              = w.gconf i k) ∧
      ((icd_gconf_get_iap_string w.gconf network_id SIM_IMSI = none ∨
          (∃ imsi, icd_gconf_get_iap_string w.gconf network_id SIM_IMSI = some imsi ∧
            ofono_modem_find_by_imsi w (some imsi) = none) ∨
          icd_gconf_get_iap_string w.gconf network_id "context_id" = none ∨
          icd_gconf_get_iap_string w.gconf network_id "context_id" = some "") →
        (ofono_link_up network_type network_attrs network_id link_up_cb token w).gconf
          = w.gconf) := by
  constructor
  · intro imsi cid md m hi hf hm hc hne hx
    have h : ofono_link_up network_type network_attrs network_id link_up_cb token w
        = (w.set_iap_string network_id "context_id" none).emit
            (Event.link_up_cb link_up_cb icd_nw_status.ICD_NW_ERROR
              (some "no_network") none token) := by
      unfold ofono_link_up
      simp only [hi, hf, hm, hc, hne, hx, if_false]
    rw [h]
    refine ⟨rfl, ?_, ?_⟩
    · simp [World.emit, World.set_iap_string, ofono_icd_gconf_set_iap_string]
    · intro i k hik
      simp [World.emit, World.set_iap_string, ofono_icd_gconf_set_iap_string, hik]
  · intro h
    unfold ofono_link_up
    cases hi : icd_gconf_get_iap_string w.gconf network_id SIM_IMSI with
    | none => simp [World.emit, hi]
    | some imsi =>
      cases hm : ofono_modem_find_by_imsi w (some imsi) with
      | none => simp [World.emit, hi, hm]
      | some md =>
        obtain ⟨m, hmd, -⟩ := find_by_imsi_valid w (some imsi) md hm
        cases hc : icd_gconf_get_iap_string w.gconf network_id "context_id" with
        | none => simp [World.emit, hmd, hi, hm, hc]
        | some cid =>
          by_cases he : cid = ""
          · simp [World.emit, hmd, he, hi, hm, hc]
          · exfalso
            rcases h with h | ⟨i, h1, h2⟩ | h | h
            · simp [hi] at h
            · rw [hi] at h1; cases h1; rw [hm] at h2; cases h2
            · simp [hc] at h
            · rw [hc] at h; cases h; exact he rfl

/-- C11 on the sample world whose modem has lost its context. -/
theorem link_up_clears_stale_context_id_witness :
    sample_stale.gconf "net" "context_id" = some (GConfValue.str "/ctx1") ∧
      (ofono_link_up "GPRS" 0 "net" 7 42 sample_stale).gconf "net" "context_id" = none :=
  ⟨by decide,
   ((link_up_clears_stale_context_id "GPRS" 0 "net" 7 42 sample_stale).1 "001" "/ctx1" 0
      { sample_modem with contexts := [] }
      (by decide) (by decide) (by decide) (by decide) (by decide) (by decide)).2.1⟩

/-- C12: in the world `_link_up_idle` has built when it calls `link_up_cb`, if the
`ipv4_type` hint read at entry (`"AUTO"` when unset) is `"AUTO"` and the method is
not DHCP, the stored address, gateway and netmask are the context's and the stored
type is `"STATIC"`; otherwise the stored address, gateway and netmask are what
they were, there and when the finalization returns. -/
theorem link_up_idle_rewrites_ip_settings (w : World) (d : Nat) (data : connctx_data)
    (ctx : OfonoConnCtx) (s : OfonoConnCtxSettings)
    (hd : w.data d = some data) (hc : w.ctx data.ctx = some ctx) (hs : ctx.settings = some s) :
    (_link_up_idle d w).1 =
        link_up_idle_finish d data s
          ((icd_gconf_get_iap_string w.gconf data.network_id "ipv4_type").getD "AUTO")
          (ofono_icd_gconf_get_iap_bool w.gconf data.network_id "ipv4_autodns" true)
          (world_at_link_up_cb d data s w) ∧
      (((icd_gconf_get_iap_string w.gconf data.network_id "ipv4_type").getD "AUTO" = "AUTO" ∧
          s.method ≠ ofono_connctx_method.OFONO_CONNCTX_METHOD_DHCP) →
        icd_gconf_get_iap_string (world_at_link_up_cb d data s w).gconf data.network_id
            "ipv4_address" = s.address ∧
          icd_gconf_get_iap_string (world_at_link_up_cb d data s w).gconf data.network_id
            "ipv4_gateway" = s.gateway ∧
          icd_gconf_get_iap_string (world_at_link_up_cb d data s w).gconf data.network_id
            "ipv4_netmask" = s.netmask ∧
          icd_gconf_get_iap_string (world_at_link_up_cb d data s w).gconf data.network_id
            "ipv4_type" = some "STATIC") ∧
      (¬ ((icd_gconf_get_iap_string w.gconf data.network_id "ipv4_type").getD "AUTO" = "AUTO" ∧
          s.method ≠ ofono_connctx_method.OFONO_CONNCTX_METHOD_DHCP) →
        ∀ k, k = "ipv4_address" ∨ k = "ipv4_gateway" ∨ k = "ipv4_netmask" →
          (world_at_link_up_cb d data s w).gconf data.network_id k
              = w.gconf data.network_id k ∧
            (_link_up_idle d w).1.gconf data.network_id k = w.gconf data.network_id k) := by
  obtain ⟨h1, h2⟩ := link_up_idle_hack_ip w.gconf data.network_id s
  refine ⟨link_up_idle_split w d data ctx s hd hc hs, h1, fun hnot k hk => ?_⟩
  obtain ⟨ha, hg, hn⟩ := h2 hnot
  rcases hk with rfl | rfl | rfl
  · exact ⟨ha, by
      rw [link_up_idle_gconf_other w d data ctx s hd hc hs _ (by decide) (by decide)]
      exact ha⟩
  · exact ⟨hg, by
      rw [link_up_idle_gconf_other w d data ctx s hd hc hs _ (by decide) (by decide)]
      exact hg⟩
  · exact ⟨hn, by
      rw [link_up_idle_gconf_other w d data ctx s hd hc hs _ (by decide) (by decide)]
      exact hn⟩

/-- C12 on the scheduled sample request: the hint is unset and the method static. -/
theorem link_up_idle_rewrites_ip_settings_witness :
    icd_gconf_get_iap_string
        (world_at_link_up_cb 0 { sample_request with timeout_id := 1 } sample_settings
          sample_scheduled).gconf "net" "ipv4_address" = some "10.0.0.2" ∧
      icd_gconf_get_iap_string
        (world_at_link_up_cb 0 { sample_request with timeout_id := 1 } sample_settings
          sample_scheduled).gconf "net" "ipv4_type" = some "STATIC" :=
  ⟨((link_up_idle_rewrites_ip_settings sample_scheduled 0 { sample_request with timeout_id := 1 }
      (sample_ctx true (some "internet") none) sample_settings
      (by decide) (by decide) rfl).2.1 (by decide)).1,
   ((link_up_idle_rewrites_ip_settings sample_scheduled 0 { sample_request with timeout_id := 1 }
      (sample_ctx true (some "internet") none) sample_settings
      (by decide) (by decide) rfl).2.1 (by decide)).2.2.2⟩

/-- C13: when `ipv4_autodns` reads true, `_link_up_idle` stores the context's first
two DNS addresses, or the only one and a cleared `ipv4_dns2`, or clears both when
there is none; when it reads false both entries are what they were; and the two
entries are the same when `link_up_cb` is called as when the finalization returns. -/
theorem link_up_idle_rewrites_dns (w : World) (d : Nat) (data : connctx_data)
    (ctx : OfonoConnCtx) (s : OfonoConnCtxSettings)
    (hd : w.data d = some data) (hc : w.ctx data.ctx = some ctx) (hs : ctx.settings = some s) :
    (ofono_icd_gconf_get_iap_bool w.gconf data.network_id "ipv4_autodns" true = true →
      (∀ a b rest, s.dns = a :: b :: rest →
        (_link_up_idle d w).1.gconf data.network_id "ipv4_dns1" = some (GConfValue.str a) ∧
        (_link_up_idle d w).1.gconf data.network_id "ipv4_dns2" = some (GConfValue.str b)) ∧
      (∀ a, s.dns = [a] →
        (_link_up_idle d w).1.gconf data.network_id "ipv4_dns1" = some (GConfValue.str a) ∧
        (_link_up_idle d w).1.gconf data.network_id "ipv4_dns2" = none) ∧
      (s.dns = [] →
        (_link_up_idle d w).1.gconf data.network_id "ipv4_dns1" = none ∧
        (_link_up_idle d w).1.gconf data.network_id "ipv4_dns2" = none)) ∧
    (ofono_icd_gconf_get_iap_bool w.gconf data.network_id "ipv4_autodns" true = false →
      (_link_up_idle d w).1.gconf data.network_id "ipv4_dns1"
          = w.gconf data.network_id "ipv4_dns1" ∧
        (_link_up_idle d w).1.gconf data.network_id "ipv4_dns2"
          = w.gconf data.network_id "ipv4_dns2") ∧
    (∀ k, k = "ipv4_dns1" ∨ k = "ipv4_dns2" →
      (world_at_link_up_cb d data s w).gconf data.network_id k
        = (_link_up_idle d w).1.gconf data.network_id k) := by
  obtain ⟨h1, h2⟩ := link_up_idle_hack_dns w.gconf data.network_id s
  have e1 := link_up_idle_gconf_other w d data ctx s hd hc hs "ipv4_dns1" (by decide) (by decide)
  have e2 := link_up_idle_gconf_other w d data ctx s hd hc hs "ipv4_dns2" (by decide) (by decide)
  rw [e1, e2]
  refine ⟨h1, h2, fun k hk => ?_⟩
  rcases hk with rfl | rfl
  · exact e1.symm
  · exact e2.symm

/-- C13 on the scheduled sample request, whose context has two DNS addresses. -/
theorem link_up_idle_rewrites_dns_witness :
    (_link_up_idle 0 sample_scheduled).1.gconf "net" "ipv4_dns1"
        = some (GConfValue.str "8.8.8.8") ∧
      (_link_up_idle 0 sample_scheduled).1.gconf "net" "ipv4_dns2"
        = some (GConfValue.str "8.8.4.4") :=
  ((link_up_idle_rewrites_dns sample_scheduled 0 { sample_request with timeout_id := 1 }
    (sample_ctx true (some "internet") none) sample_settings
    (by decide) (by decide) rfl).1 (by decide)).1 "8.8.8.8" "8.8.4.4" [] rfl

/-- C14: on a resolved context `ofono_link_up` runs the activation driver with
`activate = !ctx->active` on the world with the request registered; on an active
context that is one deactivation request and no write, on an inactive context the
property-sync pipeline and no deactivation; in both cases no `link_up_cb` is
called. -/
theorem link_up_drives_activation (network_type : String) (network_attrs : Nat)
    (network_id : String) (cb token : Nat) (w : World) (imsi cid : String) (md c : Nat)
    (m : modem_data) (ctx : OfonoConnCtx)
    (hi : icd_gconf_get_iap_string w.gconf network_id SIM_IMSI = some imsi)
    (hf : ofono_modem_find_by_imsi w (some imsi) = some md)
    (hm : w.modems[md]? = some m)
    (hcid : icd_gconf_get_iap_string w.gconf network_id "context_id" = some cid)
    (hne : cid ≠ "")
    (hx : ofono_modem_get_context_by_id m (some cid) = some c)
    (hc : w.ctx c = some ctx)
    (hoom : w.oom = false)
    (hold : ∀ d0, m.ctxhd.lookup c = some d0 → d0 ≠ w.datas.length) :
    ofono_link_up network_type network_attrs network_id cb token w
        = connctx_activate w.datas.length (!ctx.active)
            (g_object_weak_ref c w.datas.length
              (g_hash_table_insert md c w.datas.length
                (link_up_allocated network_type network_attrs network_id cb token md c w))) ∧
      ∃ es, (∀ e ∈ es, e = Event.fault ∨ ∃ d0, e = Event.destroyed d0) ∧
        (ctx.active = true →
          (ofono_link_up network_type network_attrs network_id cb token w).trace
              = w.trace ++ es ++ [Event.deactivate c] ∧
            (ofono_link_up network_type network_attrs network_id cb token w).writes
              = w.writes) ∧
        (ctx.active = false →
          ∃ es2, (ofono_link_up network_type network_attrs network_id cb token w).trace
              = w.trace ++ es ++ es2 ∧
            (es2.filter Event.is_set_string).length
              = differing_fields w.gconf network_id ctx ∧
            (differing_fields w.gconf network_id ctx = 0 → es2 = [Event.activate c]) ∧
            es2.filter Event.is_deactivate = [] ∧
            es2.filter Event.is_link_up_cb = []) := by
  obtain ⟨es, ht, hes, hctxs, hwr, -, hg, hdat⟩ := hash_table_insert_frame md c w.datas.length
    (link_up_allocated network_type network_attrs network_id cb token md c w) m hm hold
  have hc4 : (g_object_weak_ref c w.datas.length
      (g_hash_table_insert md c w.datas.length
        (link_up_allocated network_type network_attrs network_id cb token md c w))).ctx c
        = some ctx := by
    rw [World.ctx] at hc ⊢
    simp only [g_object_weak_ref, hctxs]
    exact hc
  have hd4 : (g_object_weak_ref c w.datas.length
      (g_hash_table_insert md c w.datas.length
        (link_up_allocated network_type network_attrs network_id cb token md c w))).data
          w.datas.length
        = some { network_id := network_id, network_type := network_type,
                 network_attrs := network_attrs, link_up_cb := cb,
                 link_up_cb_token := token, md := md, ctx := c, timeout_id := 0,
                 id := w.next_handler + 1, connected := false } := by
    have : (g_object_weak_ref c w.datas.length
      (g_hash_table_insert md c w.datas.length
        (link_up_allocated network_type network_attrs network_id cb token md c w))).data
          w.datas.length = (g_hash_table_insert md c w.datas.length
        (link_up_allocated network_type network_attrs network_id cb token md c w)).data
          w.datas.length := rfl
    rw [this, hdat]
    exact heap_get_append_length_some _ _
  have htr4 : (g_object_weak_ref c w.datas.length
      (g_hash_table_insert md c w.datas.length
        (link_up_allocated network_type network_attrs network_id cb token md c w))).trace
        = w.trace ++ es := ht
  have hwr4 : (g_object_weak_ref c w.datas.length
      (g_hash_table_insert md c w.datas.length
        (link_up_allocated network_type network_attrs network_id cb token md c w))).writes
        = w.writes := hwr
  have hg4 : (g_object_weak_ref c w.datas.length
      (g_hash_table_insert md c w.datas.length
        (link_up_allocated network_type network_attrs network_id cb token md c w))).gconf
        = w.gconf := hg
  have key : ∀ W4 : World, W4.ctx c = some ctx →
      (match W4.ctx c with
        | none => W4.crash
        | some ctx => connctx_activate w.datas.length (!ctx.active) W4)
        = connctx_activate w.datas.length (!ctx.active) W4 := by
    intro W4 h
    simp only [h]
  have heq : ofono_link_up network_type network_attrs network_id cb token w
      = connctx_activate w.datas.length (!ctx.active)
          (g_object_weak_ref c w.datas.length
            (g_hash_table_insert md c w.datas.length
              (link_up_allocated network_type network_attrs network_id cb token md c w))) := by
    unfold ofono_link_up
    simp only [hi, hf, hm, hcid, hne, hx, hoom, if_false, Bool.false_eq_true]
    exact key _ hc4
  refine ⟨heq, es, hes, ?_, ?_⟩
  · intro ha
    rw [heq, ha, Bool.not_true, connctx_activate_false _ _ _ hd4]
    simp only [ofono_connctx_deactivate, World.emit, htr4, hwr4]
    exact ⟨trivial, trivial⟩
  · intro ha
    rw [heq, ha, Bool.not_false]
    obtain ⟨es2, h1, h2, h3, h4, -, h6, -⟩ := connctx_activate_events _ _ _ ctx hd4 hc4
    rw [hg4] at h2 h6
    refine ⟨es2, ?_, h2, h6, h3, h4⟩
    rw [h1, htr4]

/-- C14 on the sample world with the context already active. -/
theorem link_up_drives_activation_witness :
    ofono_link_up "GPRS" 0 "net" 7 42 (sample_world true (some "old") none)
      = connctx_activate 0 false
          (g_object_weak_ref 0 0
            (g_hash_table_insert 0 0 0
              (link_up_allocated "GPRS" 0 "net" 7 42 0 0
                (sample_world true (some "old") none)))) :=
  (link_up_drives_activation "GPRS" 0 "net" 7 42 (sample_world true (some "old") none)
    "001" "/ctx1" 0 0 sample_modem (sample_ctx true (some "old") none)
    (by decide) (by decide) (by decide) (by decide) (by decide) (by decide) (by decide) rfl
    (by decide)).1

/-- C15 fails on the code: with the writes of `AccessPointName` and `Username`
outstanding, the completion of the `AccessPointName` write removes the entry
`Username` and names it in its log line. -/
theorem completion_removes_head_entry :
    sample_syncing.writes
        = [⟨0, "AccessPointName", some "internet", 0⟩, ⟨0, "Username", none, 0⟩] ∧
      sample_syncing.list 0 = some ["Username", "AccessPointName"] ∧
      (step (Input.write_complete 0 (some (some "rejected"))) sample_syncing).since
          sample_syncing.trace.length
        = [Event.property_log "Username" (some "rejected")] ∧
      (step (Input.write_complete 0 (some (some "rejected"))) sample_syncing).list 0
        = some ["AccessPointName"] := by
  decide

/-- C16: `connctx_activate` with `activate = true` issues, in the order APN, username,
password, a write of the configured value for exactly the fields whose current
value differs from it, and the pending list holds exactly their names; the
comparison is `g_strcmp0`, for which absent equals absent and absent differs from
the empty string. -/
theorem connctx_activate_writes_differing_fields (w : World) (d : Nat) (data : connctx_data)
    (ctx : OfonoConnCtx) (hd : w.data d = some data) (hc : w.ctx data.ctx = some ctx) :
    (connctx_activate d true w).writes
        = w.writes ++ (properties_to_write w.gconf data.network_id ctx).map
            (fun t => ⟨data.ctx, t.1, t.2.2, w.lists.length⟩) ∧
      (connctx_activate d true w).since w.trace.length
        = (properties_to_write w.gconf data.network_id ctx).map
            (fun t => Event.set_string_full data.ctx t.1 t.2.2 w.lists.length)
          ++ (if properties_to_write w.gconf data.network_id ctx = []
              then [Event.activate data.ctx] else []) ∧
      (connctx_activate d true w).list w.lists.length
        = (if properties_to_write w.gconf data.network_id ctx = [] then none
           else some ((properties_to_write w.gconf data.network_id ctx).map
             (fun t => t.1)).reverse) ∧
      (∀ a b : Option String, g_strcmp0 a b ≠ 0 ↔ a ≠ b) ∧
      g_strcmp0 none none = 0 ∧
      g_strcmp0 none (some "") ≠ 0 ∧
      g_strcmp0 (some "") none ≠ 0 := by
  refine ⟨?_, ?_, ?_, fun a b => not_congr (g_strcmp0_eq_zero a b), by decide, by decide,
    by decide⟩
  all_goals
    unfold connctx_activate properties_to_write property_candidates
    simp only [hd, hc, if_true, World.since]
    by_cases h1 : ctx.apn
        = icd_gconf_get_iap_string w.gconf data.network_id "gprs_accesspointname" <;>
    by_cases h2 : ctx.username
        = icd_gconf_get_iap_string w.gconf data.network_id "gprs_username" <;>
    by_cases h3 : ctx.password
        = icd_gconf_get_iap_string w.gconf data.network_id "gprs_password" <;>
    simp [sync_property, g_strcmp0_eq_zero, h1, h2, h3, World.list, heap_get_append_length,
      set_append_length, ofono_connctx_set_string_full, ofono_connctx_activate, World.emit,
      List.filter]

/-- C16 on a retry for the sample request, APN and username differing. -/
theorem connctx_activate_writes_differing_fields_witness :
    (connctx_activate 0 true sample_syncing).writes
      = sample_syncing.writes
          ++ [⟨0, "AccessPointName", some "internet", 1⟩, ⟨0, "Username", none, 1⟩] :=
  (connctx_activate_writes_differing_fields sample_syncing 0 sample_request
    (sample_ctx false (some "old") (some "bob")) (by decide) (by decide)).1

/-- C17: for a pending request, the active-state handler on an active context only
adds the idle source and stores its id in the request, leaving the trace and the
store alone; on an inactive context it is `connctx_activate` with
`activate = true`, which reports to no callback and not to the close notifier and
leaves the request and the map alone. -/
theorem active_changed_when_pending (w : World) (c d : Nat) (data : connctx_data)
    (ctx : OfonoConnCtx)
    (hc : w.ctx c = some ctx) (hd : w.data d = some data) (hdc : data.ctx = c)
    (hconn : data.connected = false) :
    (ctx.active = true →
      _ctx_active_changed_cb c d w
        = { w with
            idles := w.idles ++ [(w.next_source + 1, d)],
            next_source := w.next_source + 1,
            datas := w.datas.set d (some { data with timeout_id := w.next_source + 1 }) } ∧
      (_ctx_active_changed_cb c d w).trace = w.trace ∧
      (_ctx_active_changed_cb c d w).gconf = w.gconf ∧
      (_ctx_active_changed_cb c d w).data d
        = some { data with timeout_id := w.next_source + 1 }) ∧
    (ctx.active = false →
      _ctx_active_changed_cb c d w = connctx_activate d true w ∧
      (∃ es, (_ctx_active_changed_cb c d w).trace = w.trace ++ es ∧
        es.filter Event.is_close_fn = [] ∧ es.filter Event.is_link_up_cb = [] ∧
        es.filter Event.is_deactivate = [] ∧
        (es.filter Event.is_set_string).length
          = differing_fields w.gconf data.network_id ctx) ∧
      (_ctx_active_changed_cb c d w).modems = w.modems ∧
      (_ctx_active_changed_cb c d w).data d = some data) := by
  have hlt : d < w.datas.length := heap_get_some_lt _ _ _ hd
  constructor
  · intro ha
    have h : _ctx_active_changed_cb c d w
        = { w with
            idles := w.idles ++ [(w.next_source + 1, d)],
            next_source := w.next_source + 1,
            datas := w.datas.set d (some { data with timeout_id := w.next_source + 1 }) } := by
      unfold _ctx_active_changed_cb
      simp only [hc, hd, hconn, ha, g_idle_add, Bool.false_eq_true, not_false_eq_true, if_true]
    rw [h]
    exact ⟨rfl, rfl, rfl, heap_get_set_self _ _ _ hlt⟩
  · intro ha
    have h : _ctx_active_changed_cb c d w = connctx_activate d true w := by
      unfold _ctx_active_changed_cb
      simp only [hc, hd, hconn, ha, Bool.false_eq_true, not_false_eq_true, if_true, if_false]
    rw [h]
    obtain ⟨es, h1, h2, h3, h4, h5, -, -, h8, -⟩ :=
      connctx_activate_events w d data ctx hd (by rw [hdc]; exact hc)
    refine ⟨rfl, ⟨es, h1, h5, h4, h3, h2⟩, h8, ?_⟩
    rw [World.data, connctx_activate_datas]
    exact hd

/-- C17 on the sample request when its context has turned active. -/
theorem active_changed_when_pending_witness :
    (_ctx_active_changed_cb 0 0 sample_activated).trace = sample_activated.trace ∧
      (_ctx_active_changed_cb 0 0 sample_activated).data 0
        = some { sample_request with timeout_id := 1 } :=
  ⟨((active_changed_when_pending sample_activated 0 0 sample_request
      (sample_ctx true (some "internet") none) (by decide) (by decide) rfl rfl).1 rfl).2.1,
   ((active_changed_when_pending sample_activated 0 0 sample_request
      (sample_ctx true (some "internet") none) (by decide) (by decide) rfl rfl).1 rfl).2.2.2⟩

/-- C18: what `ofono_modem_find_by_imsi` returns is a modem of the directory whose
SIM is valid and present and whose IMSI is the given string, and it returns
nothing exactly when the directory has no such modem. -/
theorem find_by_imsi_exact_match (w : World) (imsi : Option String) :
    (∀ md, ofono_modem_find_by_imsi w imsi = some md →
        ∃ m, w.modems[md]? = some m ∧
          m.sim.valid = true ∧ m.sim.present = true ∧ m.sim.imsi = imsi) ∧
      (ofono_modem_find_by_imsi w imsi = none ↔
        ∀ m ∈ w.modems,
          ¬ (m.sim.valid = true ∧ m.sim.present = true ∧ m.sim.imsi = imsi)) := by
  constructor
  · intro md h
    obtain ⟨m, h1, h2, h3, h4⟩ := find_by_imsi_valid w imsi md h
    exact ⟨m, h1, h2, h3, (g_strcmp0_eq_zero _ _).mp h4⟩
  · exact find_by_imsi_from_none imsi w.modems 0

/-- C18 on the sample world: IMSI `"001"` finds the modem. -/
theorem find_by_imsi_exact_match_witness :
    ofono_modem_find_by_imsi (sample_world false none none) (some "001") = some 0 ∧
      ∃ m, (sample_world false none none).modems[0]? = some m ∧
        m.sim.valid = true ∧ m.sim.present = true ∧ m.sim.imsi = some "001" :=
  ⟨by decide,
   (find_by_imsi_exact_match (sample_world false none none) (some "001")).1 0 (by decide)⟩

/-- C19: when SIM identity, modem and context resolve, `ofono_link_down` removes the
context's entry from the map and requests deactivation exactly when the context
is active; when a lookup fails it only calls the callback. -/
theorem link_down_map_effect (network_type : String) (network_attrs : Nat)
    (network_id : String) (interface_name : Option String) (cb token : Nat) (w : World) :
    (∀ (imsi : String) (md c : Nat) (m : modem_data) (ctx : OfonoConnCtx),
        icd_gconf_get_iap_string w.gconf network_id SIM_IMSI = some imsi →
        ofono_modem_find_by_imsi w (some imsi) = some md →
        w.modems[md]? = some m →
        ofono_modem_get_context_by_id m
          (icd_gconf_get_iap_string w.gconf network_id "context_id") = some c →
        w.ctx c = some ctx →
        ofono_link_down network_type network_attrs network_id interface_name cb token w
            = (if ctx.active then ofono_connctx_deactivate c (g_hash_table_remove md c w)
                else g_hash_table_remove md c w).emit
                (Event.link_down_cb cb icd_nw_status.ICD_NW_SUCCESS token) ∧
          (∃ m', (ofono_link_down network_type network_attrs network_id interface_name
              cb token w).modems[md]? = some m' ∧ m'.ctxhd.lookup c = none) ∧
          ∃ es, (∀ e ∈ es, e = Event.fault ∨ ∃ d0, e = Event.destroyed d0) ∧
            (ofono_link_down network_type network_attrs network_id interface_name
                cb token w).trace
              = w.trace ++ es ++ (if ctx.active then [Event.deactivate c] else [])
                ++ [Event.link_down_cb cb icd_nw_status.ICD_NW_SUCCESS token]) ∧
      ((icd_gconf_get_iap_string w.gconf network_id SIM_IMSI = none ∨
          (∃ imsi, icd_gconf_get_iap_string w.gconf network_id SIM_IMSI = some imsi ∧
            ofono_modem_find_by_imsi w (some imsi) = none) ∨
          (∃ imsi md m, icd_gconf_get_iap_string w.gconf network_id SIM_IMSI = some imsi ∧
            ofono_modem_find_by_imsi w (some imsi) = some md ∧
            w.modems[md]? = some m ∧
            ofono_modem_get_context_by_id m
              (icd_gconf_get_iap_string w.gconf network_id "context_id") = none)) →
        ofono_link_down network_type network_attrs network_id interface_name cb token w
          = w.emit (Event.link_down_cb cb icd_nw_status.ICD_NW_SUCCESS token)) := by
  constructor
  · intro imsi md c m ctx hi hf hm hx hc
    have hc' : (g_hash_table_remove md c w).ctx c = some ctx := by
      rw [World.ctx, hash_table_remove_ctxs]
      exact hc
    have heq : ofono_link_down network_type network_attrs network_id interface_name cb token w
        = (if ctx.active then ofono_connctx_deactivate c (g_hash_table_remove md c w)
            else g_hash_table_remove md c w).emit
            (Event.link_down_cb cb icd_nw_status.ICD_NW_SUCCESS token) := by
      unfold ofono_link_down
      simp only [hi, hf, hm, hx, hc']
      split <;> rfl
    obtain ⟨m', h1, h2⟩ := hash_table_remove_clears md c w m hm
    obtain ⟨es, h3, h4⟩ := hash_table_remove_trace md c w
    rw [heq]
    refine ⟨rfl, ?_, es, h4, ?_⟩
    · by_cases ha : ctx.active = true
      · simp only [ha, if_true]
        exact ⟨m', h1, h2⟩
      · simp only [ha, if_false]
        exact ⟨m', h1, h2⟩
    · by_cases ha : ctx.active = true
      · simp [ha, World.emit, ofono_connctx_deactivate, h3]
      · simp [ha, World.emit, h3]
  · intro h
    unfold ofono_link_down
    rcases h with h | ⟨imsi, h1, h2⟩ | ⟨imsi, md, m, h1, h2, h3, h4⟩
    · simp only [h]
    · simp only [h1, h2]
    · simp only [h1, h2, h3, h4]

/-- C19 on the connected sample request. -/
theorem link_down_map_effect_witness :
    ∃ es, (∀ e ∈ es, e = Event.fault ∨ ∃ d0, e = Event.destroyed d0) ∧
      (ofono_link_down "GPRS" 0 "net" (some "rmnet0") 9 43 sample_connected).trace
        = sample_connected.trace ++ es
          ++ (if (sample_ctx true (some "internet") none).active then [Event.deactivate 0]
              else [])
          ++ [Event.link_down_cb 9 icd_nw_status.ICD_NW_SUCCESS 43] :=
  ((link_down_map_effect "GPRS" 0 "net" (some "rmnet0") 9 43 sample_connected).1 "001" 0 0
    { sample_modem with ctxhd := [(0, 0)] } (sample_ctx true (some "internet") none)
    (by decide) (by decide) (by decide) (by decide) (by decide)).2.2

/-- C20: when the context of a pending request is destroyed, `_connctx_weak_notify`
tears the request down and removes it from the map, and calls neither the close
notifier nor `link_up_cb`. -/
theorem weak_notify_when_pending (w : World) (c d : Nat) (data : connctx_data)
    (m : modem_data)
    (hd : w.data d = some data) (hconn : data.connected = false)
    (hm : w.modems[data.md]? = some m) (hreg : m.ctxhd.lookup c = some d) :
    (_connctx_weak_notify d c w).trace = w.trace ++ [Event.destroyed d] ∧
      (_connctx_weak_notify d c w).modems
        = w.modems.set data.md { m with ctxhd := m.ctxhd.filter (fun e => e.1 ≠ c) } ∧
      (m.ctxhd.filter (fun e => e.1 ≠ c)).lookup c = none ∧
      (_connctx_weak_notify d c w).data d = none := by
  have hlt : d < w.datas.length := heap_get_some_lt _ _ _ hd
  unfold _connctx_weak_notify
  simp only [hd, hconn, Bool.false_eq_true, if_false]
  obtain ⟨h1, h2, h3, -⟩ := hash_table_remove_registered data.md c d w m data hm hreg hd
  refine ⟨h1, h2, lookup_filter_ne c m.ctxhd, ?_⟩
  rw [World.data, h3]
  exact heap_get_set_self _ _ _ hlt

/-- C20 on the scheduled sample request. -/
theorem weak_notify_when_pending_witness :
    (_connctx_weak_notify 0 0 sample_scheduled).trace
        = sample_scheduled.trace ++ [Event.destroyed 0] ∧
      (_connctx_weak_notify 0 0 sample_scheduled).data 0 = none :=
  ⟨(weak_notify_when_pending sample_scheduled 0 0 { sample_request with timeout_id := 1 }
      { sample_modem with ctxhd := [(0, 0)] } (by decide) rfl (by decide) (by decide)).1,
   (weak_notify_when_pending sample_scheduled 0 0 { sample_request with timeout_id := 1 }
      { sample_modem with ctxhd := [(0, 0)] } (by decide) rfl (by decide) (by decide)).2.2.2⟩

end OfonoLink
